import Mathlib

/-!
Shallow embedding of the settlement reconciliation layer of the fox backend
(controllers `auctionController.ts` / gumball controller, helpers in
`verifyTransaction.ts`), together with theorems settling the spec claims.

Conventions of the embedding:
* machine integers / BigInt values are `Int`, counters are `Nat`;
* `Date` values are `Int` milliseconds since the epoch (`Time`); the current
  time `Date.now()` is passed explicitly as a `now` argument;
* a Prisma interactive transaction (`prismaClient.$transaction`) is an
  all-or-nothing atomic unit: a `throw` inside rolls every write back.  Each
  controller is therefore a pure function `... → DB → Except String DB`
  returning either the committed database or the thrown error message;
  intermediate writes of one atomic unit are never observable, so the unit's
  writes are assembled into the single committed record update of the `.ok`
  branch, and `commit` maps an error back to the unchanged database;
* the outcome of `verifyTransaction` for the submitted signature is passed
  as a `verified : Bool` argument to each controller that awaits it;
* a JS falsy-`||` default (`x || "system"`) is `jsOr`;
* enumeration-like DB columns that are string literals in the source
  (`status`, `state`, transaction `type`) stay `String`.
-/

namespace Fox

abbrev Addr := String
abbrev Sig := String
abbrev Time := Int
abbrev Money := Int

/-- JS `a || d` for a nullable string column: `null`, `undefined` and the
empty string are falsy and fall through to the default. -/
def jsOr (a : Option String) (d : String) : String :=
  match a with
  | some s => if s = "" then d else s
  | none => d

/-! ## Ledger Verifier (`src/src/utils/verifyTransaction.ts`) -/

/-- `confirmationStatus` of a Solana signature status. -/
inductive ConfStatus where
  | processed
  | confirmed
  | finalized
deriving DecidableEq, Repr

/-- One entry of `getSignatureStatuses(...).value`. -/
structure SigStatus where
  /-- whether `tx.err` is non-null (the transaction failed on chain) -/
  err : Bool
  confirmationStatus : Option ConfStatus
deriving DecidableEq, Repr

/-- Outcome of the awaited RPC call `connection.getSignatureStatuses`:
either the transport faults (the promise rejects) or a response is
delivered whose first entry is `none` (unknown signature) or a status. -/
inductive RpcReply where
  | failure
  | reply (value : Option SigStatus)
deriving DecidableEq, Repr

/-- `verifyTransaction` from `verifyTransaction.ts`.  The source has no
try/catch: a rejecting RPC call propagates out of the function, which the
embedding records as `Except.error ()`.  On a delivered response it returns
`false` for a missing transaction, an execution error or a pending status,
and `true` exactly for `confirmed` or `finalized`. -/
def verifyTransaction : RpcReply → Except Unit Bool
  | .failure => .error ()
  | .reply none => .ok false
  | .reply (some tx) =>
      if tx.err then .ok false
      else .ok (tx.confirmationStatus == some .confirmed
        || tx.confirmationStatus == some .finalized)

/-! ## Randomness Resolver (`calculateWinner` in `verifyTransaction.ts`) -/

/-- Unsigned little-endian integer value of a byte list, as
`new anchor.BN(buffer, 'le')` reads a buffer. -/
def leU64 (bytes : List Nat) : Nat :=
  bytes.foldr (fun b acc => acc * 256 + b) 0

/-- `calculateWinner(revealedValue, totalItemsAvailable, prizeMap)`.
Throws when the revealed value is absent or all zero (`.every` of an empty
list is `true`, matching `!revealedValue` for a missing value); `BN.mod`
with a zero modulus also throws, recorded as an error.  Otherwise the first
8 bytes are read as an unsigned 64-bit little-endian integer, reduced
modulo `totalItemsAvailable`, and the pointer indexes `prizeMap`
(out-of-range JS indexing yields `undefined`, embedded as `Option`). -/
def calculateWinner (revealedValue : List Nat) (totalItemsAvailable : Nat)
    (prizeMap : List Nat) : Except String (Nat × Option Nat) :=
  if revealedValue.all (fun v => v == 0) then
    .error "Randomness not yet resolved"
  else if totalItemsAvailable == 0 then
    .error "BN mod by zero"
  else
    .ok (leU64 (revealedValue.take 8) % totalItemsAvailable,
      prizeMap.get? (leU64 (revealedValue.take 8) % totalItemsAvailable))

/-! ## Data model (Prisma tables used by the reconciliation calls) -/

/-- A row of the `Transaction` journal table.  `kind` is the source's
`type` column (a Lean keyword).  Optional foreign keys default to `none`
exactly as the source omits them. -/
structure TxRow where
  transactionId : Sig
  kind : String
  sender : Addr
  receiver : Addr
  amount : Money
  mintAddress : Addr
  isNft : Bool := false
  raffleId : Option Nat := none
  auctionId : Option Nat := none
  gumballId : Option Nat := none
  gumballSpinId : Option Nat := none
  entryId : Option Nat := none
deriving DecidableEq, Repr

/-- The used columns of a raffle's one-to-one `prizeData` relation. -/
structure PrizeData where
  amount : Option Money
  floor : Option Money
  mintAddress : Option Addr
deriving DecidableEq, Repr

/-- A `Raffle` row (the columns the reconciliation calls read or write).
`state` ranges over "Initialized", "Active", "Cancelled", "SuccessEnded",
"FailedEnded"; `raffle` is the on-chain PDA address; `winners` stands for
the raffle's winners relation (their wallet addresses). -/
structure Raffle where
  id : Nat
  createdBy : Addr
  raffle : Option Addr
  state : String
  ticketSold : Nat
  ticketSupply : Nat
  maxEntries : Nat
  ticketPrice : Money
  ticketTokenAddress : Addr
  winnerPicked : Bool
  winners : List Addr
  claimed : Nat
  numberOfWinners : Nat
  ticketAmountClaimedByCreator : Bool
  prizeData : Option PrizeData
deriving DecidableEq, Repr

/-- An `Entry` row (raffle participation). -/
structure Entry where
  id : Nat
  raffleId : Nat
  userAddress : Addr
  quantity : Nat
deriving DecidableEq, Repr

/-- An `Auction` row.  `status` ranges over "INITIALIZED", "ACTIVE",
"CANCELLED", "COMPLETED_SUCCESSFULLY".  `timeExtension` is in minutes;
`some te` stands for a configured (truthy, hence nonzero) value and `none`
for null/0.  `bidIncrementPercent` is embedded as the basis points the
source computes with `Math.floor(percent * 100)`. -/
structure Auction where
  id : Nat
  createdBy : Addr
  auctionPda : Option Addr
  prizeMint : Addr
  status : String
  startsAt : Option Time
  endsAt : Time
  timeExtension : Option Nat
  reservePrice : Option Money
  currency : String
  bidIncrementPercent : Option Nat
  highestBidAmount : Money
  highestBidderWallet : Option Addr
  hasAnyBid : Bool
  creatorAmount : Option Money
deriving DecidableEq, Repr

/-- A `Bid` row. -/
structure Bid where
  auctionId : Nat
  bidderWallet : Addr
  bidAmount : Money
  transactionId : Sig
deriving DecidableEq, Repr

/-- A `Gumball` row.  `status` ranges over "NONE", "INITIALIZED",
"ACTIVE", "CANCELLED". -/
structure Gumball where
  id : Nat
  creatorAddress : Addr
  name : String
  manualStart : Bool
  startTime : Time
  endTime : Time
  totalTickets : Nat
  ticketMint : Option Addr
  ticketPrice : Money
  isTicketSol : Bool
  minPrizes : Nat
  maxPrizes : Nat
  maxProceeds : Money
  status : String
  ticketsSold : Nat
  totalProceeds : Money
  uniqueBuyers : Nat
  prizesAdded : Nat
deriving DecidableEq, Repr

/-- A `GumballPrize` row. -/
structure GumballPrize where
  id : Nat
  gumballId : Nat
  prizeIndex : Nat
  mint : Addr
  name : String
  isNft : Bool
  prizeAmount : Money
  quantity : Nat
  quantityClaimed : Nat
  creatorClaimed : Bool
deriving DecidableEq, Repr

/-- A `GumballSpin` row. -/
structure GumballSpin where
  id : Nat
  gumballId : Nat
  spinnerAddress : Addr
  prizeId : Option Nat
  winnerAddress : Option Addr
  prizeAmount : Money
  isPendingClaim : Bool
  claimedAt : Option Time
deriving DecidableEq, Repr

/-- The mirror store.  `entrySeq`, `spinSeq` and `raffleSeq` model the
autoincrement sequences handing out ids for created `Entry`, `GumballSpin`
and `Raffle` rows. -/
structure DB where
  raffles : List Raffle
  entries : List Entry
  auctions : List Auction
  bids : List Bid
  gumballs : List Gumball
  gumballPrizes : List GumballPrize
  gumballSpins : List GumballSpin
  transactions : List TxRow
  entrySeq : Nat
  spinSeq : Nat
  raffleSeq : Nat
deriving DecidableEq, Repr

/-- `update ... where id = ...`: rewrite the rows matching the predicate. -/
def listUpd (l : List α) (p : α → Bool) (f : α → α) : List α :=
  l.map fun a => if p a then f a else a

/-- `findUnique` / `findFirst`: the first row matching the predicate. -/
abbrev dbFind (l : List α) (p : α → Bool) : Option α :=
  l.find? p

/-- The committed database of a reconciliation call: its new state when the
atomic unit commits, the unchanged one when it throws (rollback). -/
def commit (r : Except String DB) (st : DB) : DB :=
  match r with
  | .ok st' => st'
  | .error _ => st

/-- The journal rows carrying a given external transaction id. -/
def journalCount (st : DB) (t : Sig) : Nat :=
  (st.transactions.filter (fun r => r.transactionId == t)).length

/-- The `findUnique` duplicate lookup on the journal. -/
def journalDup (st : DB) (t : Sig) : Option TxRow :=
  dbFind st.transactions (fun r => r.transactionId == t)

/-- Wrapped SOL, the default `mintAddress` the source writes. -/
def wsolMint : Addr := "So11111111111111111111111111111111111111112"

/-- JS `a || d` for a nullable BigInt column: null and zero are falsy. -/
def jsOrMoney (a : Option Money) (d : Money) : Money :=
  match a with
  | some v => if v = 0 then d else v
  | none => d

/-! ## Raffle controller -/

namespace RaffleCtrl

/-- The parsed `raffleSchema` payload of `createRaffle` (the columns the
embedded `Raffle` carries; presentational prize metadata is dropped). -/
structure CreateData where
  raffle : Option Addr
  createdAt : Option Time
  endsAt : Option Time
  createdBy : Addr
  ticketPrice : Money
  ticketSupply : Nat
  maxEntries : Nat
  numberOfWinners : Nat
  ticketTokenAddress : Addr
  prizeData : Option PrizeData
  txSignature : Sig
deriving DecidableEq, Repr

/-- `createRaffle`.  NOTE: in the source the `verifyTransaction` call is
commented out, so the `verified` argument (the Ledger Verifier's answer for
the submitted signature) is never consulted.  Inside the atomic unit: the
duplicate journal lookup, the raffle insert (id from the autoincrement
sequence, aggregate columns at their DB defaults), and the
`RAFFLE_CREATION` journal insert, which carries no raffle foreign key. -/
def createRaffle (_verified : Bool) (d : CreateData) (now : Time) (st : DB) :
    Except String DB :=
  if (match d.endsAt, d.createdAt with
      | some e, some c => decide (e < c)
      | _, _ => false) then
    .error "Invalid endsAt"
  else
    match journalDup st d.txSignature with
    | some _ => .error "Transaction already exists"
    | none =>
      .ok { st with
        raffles := st.raffles ++ [{
          id := st.raffleSeq
          createdBy := d.createdBy
          raffle := d.raffle
          state := match d.createdAt with
            | some c => if c ≤ now then "Active" else "Initialized"
            | none => "Initialized"
          ticketSold := 0
          ticketSupply := d.ticketSupply
          maxEntries := d.maxEntries
          ticketPrice := d.ticketPrice
          ticketTokenAddress := d.ticketTokenAddress
          winnerPicked := false
          winners := []
          claimed := 0
          numberOfWinners := d.numberOfWinners
          ticketAmountClaimedByCreator := false
          prizeData := d.prizeData }]
        raffleSeq := st.raffleSeq + 1
        transactions := st.transactions ++ [{
          transactionId := d.txSignature
          kind := "RAFFLE_CREATION"
          sender := d.createdBy
          receiver := jsOr d.raffle "system"
          amount := 0
          mintAddress := wsolMint }] }

/-- `buyTicket`.  Guards in source order; the two entry branches (update of
an existing entry / insert of a fresh one) each continue with the raffle
aggregate update, the duplicate journal lookup and the `RAFFLE_ENTRY`
journal insert, all inside one atomic unit. -/
def buyTicket (verified : Bool) (raffleId : Nat) (userAddress : Addr)
    (quantity : Nat) (txSignature : Sig) (st : DB) : Except String DB :=
  if !verified then .error "Invalid transaction"
  else
    match dbFind st.raffles (fun r => r.id == raffleId) with
    | none => .error "Raffle not found or not active"
    | some raffle =>
      if raffle.state != "Active" then .error "Raffle not found or not active"
      else if raffle.ticketSold + quantity > raffle.ticketSupply then
        .error "Quantity exceeds ticket supply"
      else if quantity > raffle.maxEntries then
        .error "Quantity exceeds max entries"
      else
        match dbFind st.entries
            (fun e => e.raffleId == raffleId && e.userAddress == userAddress) with
        | some existingEntry =>
          if existingEntry.quantity + quantity > raffle.maxEntries then
            .error "Quantity exceeds max entries"
          else if existingEntry.quantity + quantity > raffle.ticketSupply then
            .error "Quantity exceeds ticket sold"
          else
            match journalDup st txSignature with
            | some _ => .error "Transaction already exists"
            | none =>
              .ok { st with
                entries := listUpd st.entries (fun e => e.id == existingEntry.id)
                  (fun e => { e with quantity := existingEntry.quantity + quantity })
                raffles := listUpd st.raffles (fun r => r.id == raffleId)
                  (fun r => { r with ticketSold := raffle.ticketSold + quantity })
                transactions := st.transactions ++ [{
                  transactionId := txSignature
                  kind := "RAFFLE_ENTRY"
                  sender := userAddress
                  receiver := jsOr raffle.raffle "system"
                  amount := (quantity : Int) * raffle.ticketPrice
                  mintAddress := raffle.ticketTokenAddress
                  entryId := some existingEntry.id }] }
        | none =>
            match journalDup st txSignature with
            | some _ => .error "Transaction already exists"
            | none =>
              .ok { st with
                entries := st.entries ++ [{
                  id := st.entrySeq
                  raffleId := raffleId
                  userAddress := userAddress
                  quantity := quantity }]
                entrySeq := st.entrySeq + 1
                raffles := listUpd st.raffles (fun r => r.id == raffleId)
                  (fun r => { r with ticketSold := raffle.ticketSold + quantity })
                transactions := st.transactions ++ [{
                  transactionId := txSignature
                  kind := "RAFFLE_ENTRY"
                  sender := userAddress
                  receiver := jsOr raffle.raffle "system"
                  amount := (quantity : Int) * raffle.ticketPrice
                  mintAddress := raffle.ticketTokenAddress
                  entryId := some st.entrySeq }] }

/-- The per-winner prize share `claimPrize` records: JS
`raffle.prizeData ? (amount ? amount : floor!) / numberOfWinners : 0`,
with JS number division embedded as integer division (no claim depends on
the quotient's value). -/
def prizeShare (r : Raffle) : Money :=
  match r.prizeData with
  | none => 0
  | some pd =>
    (match pd.amount with
     | some a => if a = 0 then pd.floor.getD 0 else a
     | none => pd.floor.getD 0) / (r.numberOfWinners : Int)

/-- The receiver written by raffle claim rows:
`raffle.raffle || raffleId.toString()`. -/
def raffleReceiver (r : Raffle) (raffleId : Nat) : Addr :=
  jsOr r.raffle (toString raffleId)

/-- Raffle `claimPrize` (winner claim).  Guards in source order; the
per-caller double-claim guard looks for an existing `RAFFLE_CLAIM` journal
row with this sender and this raffle's receiver string. -/
def claimPrize (verified : Bool) (raffleId : Nat) (userAddress : Addr)
    (txSignature : Sig) (st : DB) : Except String DB :=
  if !verified then .error "Invalid transaction"
  else
    match dbFind st.raffles (fun r => r.id == raffleId) with
    | none => .error "Raffle not found"
    | some raffle =>
      if raffle.state != "SuccessEnded" then
        .error "Raffle has not ended successfully"
      else if !raffle.winnerPicked then
        .error "Winners have not been picked yet"
      else if !(raffle.winners.any (fun w => w == userAddress)) then
        .error "User is not a winner of this raffle"
      else if raffle.claimed ≥ raffle.numberOfWinners then
        .error "All prizes have already been claimed"
      else
        match journalDup st txSignature with
        | some _ => .error "Transaction already exists"
        | none =>
          match dbFind st.transactions (fun t =>
              t.kind == "RAFFLE_CLAIM" && t.sender == userAddress
              && t.receiver == raffleReceiver raffle raffleId) with
          | some _ => .error "User has already claimed their prize"
          | none =>
            .ok { st with
              raffles := listUpd st.raffles (fun r => r.id == raffleId)
                (fun r => { r with claimed := raffle.claimed + 1 })
              transactions := st.transactions ++ [{
                transactionId := txSignature
                kind := "RAFFLE_CLAIM"
                sender := userAddress
                receiver := raffleReceiver raffle raffleId
                amount := prizeShare raffle
                mintAddress := jsOr (raffle.prizeData.bind (fun pd => pd.mintAddress))
                  "unknown"
                raffleId := some raffleId }] }

/-- `cancelRaffle`.  The source performs no duplicate lookup before the
`RAFFLE_CANCEL` insert; the journal's unique key on `transactionId` rejects
a duplicate insert, aborting the unit. -/
def cancelRaffle (verified : Bool) (raffleId : Nat) (userAddress : Addr)
    (txSignature : Sig) (st : DB) : Except String DB :=
  if !verified then .error "Invalid transaction"
  else
    match dbFind st.raffles
        (fun r => r.id == raffleId && r.createdBy == userAddress) with
    | none => .error "Raffle not found"
    | some raffle =>
      if raffle.ticketSold != 0 then
        .error "Raffle has tickets sold, cannot be cancelled"
      else
        match journalDup st txSignature with
        | some _ => .error "Unique constraint failed on transactionId"
        | none =>
          .ok { st with
            raffles := listUpd st.raffles (fun r => r.id == raffleId)
              (fun r => { r with state := "Cancelled" })
            transactions := st.transactions ++ [{
              transactionId := txSignature
              kind := "RAFFLE_CANCEL"
              sender := raffle.createdBy
              receiver := "system"
              amount := 0
              mintAddress := wsolMint }] }

end RaffleCtrl

/-! ## Auction controller -/

namespace AuctionCtrl

/-- The parsed `auctionSchema` payload of `createAuction` (the columns the
embedded `Auction` carries). -/
structure CreateData where
  id : Nat
  createdBy : Addr
  prizeMint : Addr
  startsAt : Option Time
  endsAt : Time
  timeExtension : Option Nat
  reservePrice : Option Money
  currency : String
  bidIncrementPercent : Option Nat
  auctionPda : Option Addr
  txSignature : Sig
deriving DecidableEq, Repr

/-- `createAuction`.  The time-window guard rejects only `endsAt < startsAt`
(and only when `startsAt` is present; `endsAt`, a Date, is always truthy);
equal bounds pass.  Status is ACTIVE when `startsAt` is present and already
past, INITIALIZED otherwise. -/
def createAuction (verified : Bool) (d : CreateData) (now : Time) (st : DB) :
    Except String DB :=
  if (match d.startsAt with
      | some s => decide (d.endsAt < s)
      | none => false) then
    .error "Invalid endsAt"
  else if !verified then .error "Transaction not confirmed"
  else
    match journalDup st d.txSignature with
    | some _ => .error "Transaction already exists"
    | none =>
      .ok { st with
        auctions := st.auctions ++ [{
          id := d.id
          createdBy := d.createdBy
          auctionPda := d.auctionPda
          prizeMint := d.prizeMint
          status := match d.startsAt with
            | some s => if s ≤ now then "ACTIVE" else "INITIALIZED"
            | none => "INITIALIZED"
          startsAt := d.startsAt
          endsAt := d.endsAt
          timeExtension := d.timeExtension
          reservePrice := d.reservePrice
          currency := d.currency
          bidIncrementPercent := d.bidIncrementPercent
          highestBidAmount := 0
          highestBidderWallet := none
          hasAnyBid := false
          creatorAmount := none }]
        transactions := st.transactions ++ [{
          transactionId := d.txSignature
          kind := "AUCTION_CREATION"
          sender := d.createdBy
          receiver := jsOr d.auctionPda "system"
          amount := 0
          mintAddress := d.prizeMint
          auctionId := some d.id }] }

/-- The soft-close end time of `placeBid`: when a time extension is
configured (truthy column, embedded as `some te`) and the remaining time
`endsAt - now` is strictly below `te` minutes in milliseconds, the end time
becomes `now` plus that threshold; otherwise it is unchanged. -/
def computeNewEndsAt (now : Time) (a : Auction) : Time :=
  match a.timeExtension with
  | none => a.endsAt
  | some te =>
      if a.endsAt - now < (te : Int) * 60 * 1000 then now + (te : Int) * 60 * 1000
      else a.endsAt

/-- The journal `mintAddress` for bid money: wrapped SOL for the "SOL"
currency, the currency mint otherwise. -/
def currencyMint (currency : String) : Addr :=
  if currency = "SOL" then wsolMint else currency

/-- `placeBid`.  Guards in source order (active auction, not ended, reserve
price, higher than the standing bid, minimum increment, duplicate journal
lookup), then one atomic unit inserts the `AUCTION_BID` journal row and the
`Bid` row and updates the auction's highest bid and soft-close end time. -/
def placeBid (verified : Bool) (auctionId : Nat) (userAddress : Addr)
    (bidAmount : Money) (txSignature : Sig) (now : Time) (st : DB) :
    Except String DB :=
  if !verified then .error "Invalid transaction"
  else
    match dbFind st.auctions (fun a => a.id == auctionId) with
    | none => .error "Auction not found or not active"
    | some auction =>
      if auction.status != "ACTIVE" then .error "Auction not found or not active"
      else if auction.endsAt < now then .error "Auction has ended"
      else if (match auction.reservePrice with
          | some rp => decide (bidAmount < rp)
          | none => false) then
        .error "Bid amount is below reserve price"
      else if auction.hasAnyBid && bidAmount ≤ auction.highestBidAmount then
        .error "Bid amount must be higher than current highest bid"
      else if (auction.hasAnyBid &&
          (match auction.bidIncrementPercent with
           | some bps =>
             decide (bidAmount < auction.highestBidAmount
               + auction.highestBidAmount * (bps : Int) / 10000)
           | none => false)) then
        .error "Bid must be higher than current bid by the increment"
      else
        match journalDup st txSignature with
        | some _ => .error "Transaction already exists"
        | none =>
          .ok { st with
            transactions := st.transactions ++ [{
              transactionId := txSignature
              kind := "AUCTION_BID"
              sender := userAddress
              receiver := jsOr auction.auctionPda "system"
              amount := bidAmount
              mintAddress := currencyMint auction.currency
              auctionId := some auctionId }]
            bids := st.bids ++ [{
              auctionId := auctionId
              bidderWallet := userAddress
              bidAmount := bidAmount
              transactionId := txSignature }]
            auctions := listUpd st.auctions (fun a => a.id == auctionId)
              (fun a => { a with
                highestBidAmount := bidAmount
                highestBidderWallet := some userAddress
                hasAnyBid := true
                endsAt := computeNewEndsAt now auction }) }

/-- `claimAuction`.  Claimable only from COMPLETED_SUCCESSFULLY by the
winner or the creator; rejects a duplicate signature and a caller with an
existing `AUCTION_CLAIM` journal row for this auction; inserts only the
claim journal row (no aggregate is mutated). -/
def claimAuction (verified : Bool) (auctionId : Nat) (userAddress : Addr)
    (txSignature : Sig) (st : DB) : Except String DB :=
  if !verified then .error "Invalid transaction"
  else
    match dbFind st.auctions (fun a => a.id == auctionId) with
    | none => .error "Auction not found"
    | some auction =>
      if auction.status != "COMPLETED_SUCCESSFULLY" then
        .error "Auction has not ended successfully"
      else if !(auction.highestBidderWallet == some userAddress
          || auction.createdBy == userAddress) then
        .error "User is not the winner or creator of this auction"
      else
        match journalDup st txSignature with
        | some _ => .error "Transaction already exists"
        | none =>
          match dbFind st.transactions (fun t =>
              t.kind == "AUCTION_CLAIM" && t.sender == userAddress
              && t.auctionId == some auctionId) with
          | some _ => .error "User has already claimed from this auction"
          | none =>
            .ok { st with
              transactions := st.transactions ++ [{
                transactionId := txSignature
                kind := "AUCTION_CLAIM"
                sender := userAddress
                receiver := jsOr auction.auctionPda (toString auctionId)
                amount := if auction.highestBidderWallet == some userAddress then 0
                  else jsOrMoney auction.creatorAmount auction.highestBidAmount
                mintAddress := if auction.highestBidderWallet == some userAddress then
                    auction.prizeMint
                  else currencyMint auction.currency
                isNft := auction.highestBidderWallet == some userAddress
                auctionId := some auctionId }] }

/-- `cancelAuction`.  No duplicate lookup in the source; the journal's
unique key on `transactionId` rejects a duplicate `AUCTION_CANCEL` insert. -/
def cancelAuction (verified : Bool) (auctionId : Nat) (userAddress : Addr)
    (txSignature : Sig) (st : DB) : Except String DB :=
  if !verified then .error "Invalid transaction"
  else
    match dbFind st.auctions
        (fun a => a.id == auctionId && a.createdBy == userAddress) with
    | none => .error "Auction not found"
    | some auction =>
      if auction.hasAnyBid then .error "Auction has bids, cannot be cancelled"
      else
        match journalDup st txSignature with
        | some _ => .error "Unique constraint failed on transactionId"
        | none =>
          .ok { st with
            auctions := listUpd st.auctions (fun a => a.id == auctionId)
              (fun a => { a with status := "CANCELLED" })
            transactions := st.transactions ++ [{
              transactionId := txSignature
              kind := "AUCTION_CANCEL"
              sender := auction.createdBy
              receiver := "system"
              amount := 0
              mintAddress := auction.prizeMint
              auctionId := some auctionId }] }

end AuctionCtrl

/-! ## Gumball controller -/

namespace GumballCtrl

/-- The parsed `gumballSchema` payload of `createGumball` (buy-back columns
are dropped: no embedded call reads them). -/
structure CreateData where
  id : Nat
  creatorAddress : Addr
  name : String
  manualStart : Bool
  startTime : Time
  endTime : Time
  totalTickets : Nat
  ticketMint : Option Addr
  ticketPrice : Money
  isTicketSol : Bool
  minPrizes : Nat
  maxPrizes : Nat
  txSignature : Sig
deriving DecidableEq, Repr

/-- `createGumball`.  The time-window guard rejects `endTime ≤ startTime`
(strict ordering required) and runs before the verifier; status is ACTIVE
when `startTime` is already past, INITIALIZED otherwise; max proceeds is
ticket price times total tickets. -/
def createGumball (verified : Bool) (d : CreateData) (now : Time) (st : DB) :
    Except String DB :=
  if d.endTime ≤ d.startTime then .error "End time must be after start time"
  else if !verified then .error "Transaction not confirmed"
  else
    match journalDup st d.txSignature with
    | some _ => .error "Transaction already exists"
    | none =>
      .ok { st with
        gumballs := st.gumballs ++ [{
          id := d.id
          creatorAddress := d.creatorAddress
          name := d.name
          manualStart := d.manualStart
          startTime := d.startTime
          endTime := d.endTime
          totalTickets := d.totalTickets
          ticketMint := d.ticketMint
          ticketPrice := d.ticketPrice
          isTicketSol := d.isTicketSol
          minPrizes := d.minPrizes
          maxPrizes := d.maxPrizes
          maxProceeds := d.ticketPrice * (d.totalTickets : Int)
          status := if d.startTime ≤ now then "ACTIVE" else "INITIALIZED"
          ticketsSold := 0
          totalProceeds := 0
          uniqueBuyers := 0
          prizesAdded := 0 }]
        transactions := st.transactions ++ [{
          transactionId := d.txSignature
          kind := "GUMBALL_CREATION"
          sender := d.creatorAddress
          receiver := "system"
          amount := 0
          mintAddress := jsOr d.ticketMint wsolMint
          gumballId := some d.id }] }

/-- `spin`.  The bounded write-conflict retry loop of the source re-runs
the same atomic unit and is invisible to this sequential embedding.  Inside
the unit: duplicate journal lookup, gumball guards (active, started, not
ended, tickets remaining), the pending `GumballSpin` insert, the aggregate
increments and the `GUMBALL_SPIN` journal insert. -/
def spin (verified : Bool) (gumballId : Nat) (userAddress : Addr)
    (txSignature : Sig) (now : Time) (st : DB) : Except String DB :=
  if !verified then .error "Transaction not confirmed"
  else
    match journalDup st txSignature with
    | some _ => .error "Transaction already exists"
    | none =>
      match dbFind st.gumballs (fun g => g.id == gumballId) with
      | none => .error "Gumball not found"
      | some gumball =>
        if gumball.status != "ACTIVE" then .error "Gumball is not active"
        else if !gumball.manualStart && now < gumball.startTime then
          .error "Gumball has not started yet"
        else if gumball.endTime < now then .error "Gumball has ended"
        else if gumball.ticketsSold ≥ gumball.totalTickets then
          .error "All tickets have been sold"
        else
          .ok { st with
            gumballSpins := st.gumballSpins ++ [{
              id := st.spinSeq
              gumballId := gumballId
              spinnerAddress := userAddress
              prizeId := none
              winnerAddress := none
              prizeAmount := 0
              isPendingClaim := true
              claimedAt := none }]
            spinSeq := st.spinSeq + 1
            gumballs := listUpd st.gumballs (fun g => g.id == gumballId)
              (fun g => { g with
                ticketsSold := g.ticketsSold + 1
                totalProceeds := g.totalProceeds + gumball.ticketPrice
                uniqueBuyers := g.uniqueBuyers +
                  (if (dbFind st.gumballSpins (fun s =>
                      s.gumballId == gumballId
                      && s.spinnerAddress == userAddress)).isNone
                   then 1 else 0) })
            transactions := st.transactions ++ [{
              transactionId := txSignature
              kind := "GUMBALL_SPIN"
              sender := userAddress
              receiver := "system"
              amount := gumball.ticketPrice
              mintAddress := jsOr gumball.ticketMint wsolMint
              gumballId := some gumballId
              gumballSpinId := some st.spinSeq }] }

/-- Gumball `claimPrize`.  Inside the atomic unit: duplicate journal
lookup, spin-record guards (exists, belongs to the gumball, owned by the
caller, still pending claim), prize guards (exists by index, quantity not
exhausted), then the spin resolution, the `quantityClaimed` increment and
the `GUMBALL_CLAIM_PRIZE` journal insert. -/
def claimPrize (verified : Bool) (gumballId : Nat) (userAddress : Addr)
    (spinId : Nat) (prizeIndex : Nat) (txSignature : Sig) (now : Time)
    (st : DB) : Except String DB :=
  if !verified then .error "Transaction not confirmed"
  else
    match journalDup st txSignature with
    | some _ => .error "Transaction already exists"
    | none =>
      match dbFind st.gumballSpins (fun s => s.id == spinId) with
      | none => .error "Spin not found"
      | some sp =>
        if sp.gumballId != gumballId then
          .error "Spin does not belong to this gumball"
        else if sp.spinnerAddress != userAddress then
          .error "User is not the spinner of this spin"
        else if !sp.isPendingClaim then .error "Prize already claimed"
        else
          match dbFind st.gumballPrizes (fun p =>
              p.gumballId == gumballId && p.prizeIndex == prizeIndex) with
          | none => .error "Prize not found"
          | some prize =>
            if prize.quantityClaimed ≥ prize.quantity then
              .error "This prize is no longer available"
            else
              .ok { st with
                gumballSpins := listUpd st.gumballSpins (fun s => s.id == spinId)
                  (fun s => { s with
                    prizeId := some prize.id
                    winnerAddress := some userAddress
                    prizeAmount := prize.prizeAmount
                    isPendingClaim := false
                    claimedAt := some now })
                gumballPrizes := listUpd st.gumballPrizes (fun p => p.id == prize.id)
                  (fun p => { p with quantityClaimed := p.quantityClaimed + 1 })
                transactions := st.transactions ++ [{
                  transactionId := txSignature
                  kind := "GUMBALL_CLAIM_PRIZE"
                  sender := userAddress
                  receiver := userAddress
                  amount := prize.prizeAmount
                  mintAddress := prize.mint
                  isNft := prize.isNft
                  gumballId := some gumballId }] }

/-- `activateGumball`.  Creator-only, not already active, minimum prize
count met; no duplicate lookup in the source, so the journal's unique key
rejects a duplicate `GUMBALL_ACTIVATE` insert. -/
def activateGumball (verified : Bool) (gumballId : Nat) (userAddress : Addr)
    (txSignature : Sig) (st : DB) : Except String DB :=
  if !verified then .error "Transaction not confirmed"
  else
    match dbFind st.gumballs
        (fun g => g.id == gumballId && g.creatorAddress == userAddress) with
    | none => .error "Gumball not found or not owned by user"
    | some gumball =>
      if gumball.status == "ACTIVE" then .error "Gumbal already activated"
      else if gumball.prizesAdded < gumball.minPrizes then
        .error "Gumball must have the minimum number of prizes to activate"
      else
        match journalDup st txSignature with
        | some _ => .error "Unique constraint failed on transactionId"
        | none =>
          .ok { st with
            gumballs := listUpd st.gumballs (fun g => g.id == gumballId)
              (fun g => { g with status := "ACTIVE" })
            transactions := st.transactions ++ [{
              transactionId := txSignature
              kind := "GUMBALL_ACTIVATE"
              sender := userAddress
              receiver := "system"
              amount := 0
              mintAddress := jsOr gumball.ticketMint wsolMint
              gumballId := some gumballId }] }

/-- `cancelGumball`.  Creator-only, only with no sold tickets; no duplicate
lookup in the source, so the journal's unique key rejects a duplicate
`GUMBALL_CANCEL` insert. -/
def cancelGumball (verified : Bool) (gumballId : Nat) (userAddress : Addr)
    (txSignature : Sig) (st : DB) : Except String DB :=
  if !verified then .error "Transaction not confirmed"
  else
    match dbFind st.gumballs
        (fun g => g.id == gumballId && g.creatorAddress == userAddress) with
    | none => .error "Gumball not found or not owned by user"
    | some gumball =>
      if gumball.ticketsSold > 0 then
        .error "Cannot cancel gumball with sold tickets"
      else
        match journalDup st txSignature with
        | some _ => .error "Unique constraint failed on transactionId"
        | none =>
          .ok { st with
            gumballs := listUpd st.gumballs (fun g => g.id == gumballId)
              (fun g => { g with status := "CANCELLED" })
            transactions := st.transactions ++ [{
              transactionId := txSignature
              kind := "GUMBALL_CANCEL"
              sender := userAddress
              receiver := "system"
              amount := 0
              mintAddress := jsOr gumball.ticketMint wsolMint
              gumballId := some gumballId }] }

end GumballCtrl

/-! ## Invariants and outcome observations -/

/-- The call was reported through `responseHandler.error` (the thrown
value's message becomes the error payload of a 4xx/5xx response), as
opposed to a `responseHandler.success` 200 response. -/
def isErr (r : Except String DB) : Bool :=
  match r with
  | .ok _ => false
  | .error _ => true

/-- Capacity invariant of raffles: tickets sold never exceed the supply. -/
abbrev RaffleCap (st : DB) : Prop :=
  ∀ r ∈ st.raffles, r.ticketSold ≤ r.ticketSupply

/-- Capacity invariant of gumballs: tickets sold never exceed the total. -/
abbrev GumballCap (st : DB) : Prop :=
  ∀ g ∈ st.gumballs, g.ticketsSold ≤ g.totalTickets

/-- Capacity invariant of gumball prizes: claims never exceed quantity. -/
abbrev PrizeCap (st : DB) : Prop :=
  ∀ p ∈ st.gumballPrizes, p.quantityClaimed ≤ p.quantity

/-- Per-participant raffle cap: every entry row stays within the
`maxEntries` of its raffle. -/
abbrev EntryCap (st : DB) : Prop :=
  ∀ e ∈ st.entries, ∀ r ∈ st.raffles, r.id = e.raffleId →
    e.quantity ≤ r.maxEntries

/-! ## Concrete fixtures for the closed witness statements -/

/-- The empty mirror store. -/
def emptyDB : DB where
  raffles := []
  entries := []
  auctions := []
  bids := []
  gumballs := []
  gumballPrizes := []
  gumballSpins := []
  transactions := []
  entrySeq := 1
  spinSeq := 1
  raffleSeq := 1

/-- A journal row already holding a given external transaction id. -/
def sampleTxRow (t : Sig) (k : String) : TxRow where
  transactionId := t
  kind := k
  sender := "someSender"
  receiver := "someReceiver"
  amount := 0
  mintAddress := wsolMint

/-- An active raffle fixture. -/
def sampleRaffle : Raffle where
  id := 1
  createdBy := "creator"
  raffle := some "rafflePda"
  state := "Active"
  ticketSold := 0
  ticketSupply := 100
  maxEntries := 10
  ticketPrice := 5
  ticketTokenAddress := "ticketMint"
  winnerPicked := false
  winners := []
  claimed := 0
  numberOfWinners := 2
  ticketAmountClaimedByCreator := false
  prizeData := none

/-- An active auction fixture with a two-minute soft-close extension. -/
def sampleAuction : Auction where
  id := 1
  createdBy := "creator"
  auctionPda := some "auctionPda"
  prizeMint := "prizeMint"
  status := "ACTIVE"
  startsAt := some 0
  endsAt := 1000000
  timeExtension := some 2
  reservePrice := none
  currency := "SOL"
  bidIncrementPercent := none
  highestBidAmount := 0
  highestBidderWallet := none
  hasAnyBid := false
  creatorAmount := none

/-- A successfully completed auction fixture with a winner. -/
def sampleAuctionDone : Auction :=
  { sampleAuction with
    status := "COMPLETED_SUCCESSFULLY"
    highestBidAmount := 500
    highestBidderWallet := some "winner"
    hasAnyBid := true }

/-- An active gumball fixture. -/
def sampleGumball : Gumball where
  id := 1
  creatorAddress := "creator"
  name := "gumball"
  manualStart := false
  startTime := 0
  endTime := 1000000
  totalTickets := 5
  ticketMint := none
  ticketPrice := 7
  isTicketSol := true
  minPrizes := 1
  maxPrizes := 5
  maxProceeds := 35
  status := "ACTIVE"
  ticketsSold := 0
  totalProceeds := 0
  uniqueBuyers := 0
  prizesAdded := 1

/-- A gumball prize fixture with one unit left. -/
def samplePrize : GumballPrize where
  id := 11
  gumballId := 1
  prizeIndex := 0
  mint := "prizeMint"
  name := "prize"
  isNft := false
  prizeAmount := 3
  quantity := 1
  quantityClaimed := 0
  creatorClaimed := false

/-- A pending gumball spin fixture. -/
def samplePendingSpin : GumballSpin where
  id := 21
  gumballId := 1
  spinnerAddress := "spinner"
  prizeId := none
  winnerAddress := none
  prizeAmount := 0
  isPendingClaim := true
  claimedAt := none

/-- A raffle creation payload fixture. -/
def sampleRaffleCreate : RaffleCtrl.CreateData where
  raffle := some "rafflePda"
  createdAt := some 0
  endsAt := some 1000000
  createdBy := "creator"
  ticketPrice := 5
  ticketSupply := 100
  maxEntries := 10
  numberOfWinners := 2
  ticketTokenAddress := "ticketMint"
  prizeData := none
  txSignature := "SIG_RAFFLE_CREATE"

/-- An auction creation payload fixture whose start and end coincide. -/
def sampleAuctionCreateEq : AuctionCtrl.CreateData where
  id := 7
  createdBy := "creator"
  prizeMint := "prizeMint"
  startsAt := some 500
  endsAt := 500
  timeExtension := none
  reservePrice := none
  currency := "SOL"
  bidIncrementPercent := none
  auctionPda := none
  txSignature := "SIG_AUCTION_CREATE"

/-- A gumball creation payload fixture. -/
def sampleGumballCreate : GumballCtrl.CreateData where
  id := 9
  creatorAddress := "creator"
  name := "gumball"
  manualStart := false
  startTime := 0
  endTime := 1000000
  totalTickets := 5
  ticketMint := none
  ticketPrice := 7
  isTicketSol := true
  minPrizes := 1
  maxPrizes := 5
  txSignature := "SIG_GUMBALL_CREATE"

/-- A raffle ended successfully with a picked winner. -/
def raffleWon : Raffle :=
  { sampleRaffle with
    state := "SuccessEnded"
    winnerPicked := true
    winners := ["winner"] }

/-- Store with one active raffle. -/
def raffleDB : DB := { emptyDB with raffles := [sampleRaffle] }

/-- Store with one claimable raffle. -/
def raffleWonDB : DB := { emptyDB with raffles := [raffleWon] }

/-- Store with one active auction. -/
def bidDB0 : DB := { emptyDB with auctions := [sampleAuction] }

/-- Store with one completed auction. -/
def auctionDoneDB : DB := { emptyDB with auctions := [sampleAuctionDone] }

/-- Store with one active gumball, one prize and one pending spin. -/
def gumballDB : DB :=
  { emptyDB with
    gumballs := [sampleGumball]
    gumballPrizes := [samplePrize]
    gumballSpins := [samplePendingSpin] }

/-- Store whose journal already holds the id "SIG1". -/
def dupDB : DB :=
  { emptyDB with transactions := [sampleTxRow "SIG1" "GUMBALL_SPIN"] }

/-- Store with an active gumball and a used journal id "SIG1". -/
def dupSpinDB : DB :=
  { emptyDB with
    gumballs := [sampleGumball]
    transactions := [sampleTxRow "SIG1" "GUMBALL_SPIN"] }

/-- Store with a raffle one ticket short of its supply. -/
def raffleAlmostFullDB : DB :=
  { emptyDB with raffles := [{ sampleRaffle with ticketSold := 99 }] }

/-- Store with a sold-out gumball. -/
def gumballFullDB : DB :=
  { emptyDB with gumballs := [{ sampleGumball with ticketsSold := 5 }] }

/-- Store with a gumball whose only prize is exhausted. -/
def gumballExhaustedDB : DB :=
  { emptyDB with
    gumballs := [sampleGumball]
    gumballPrizes := [{ samplePrize with quantityClaimed := 1 }]
    gumballSpins := [samplePendingSpin] }

/-- Store whose only spin is already resolved. -/
def gumballClaimedDB : DB :=
  { gumballDB with
    gumballSpins := [{ samplePendingSpin with isPendingClaim := false }] }

/-- Store with a completed auction whose winner already claimed. -/
def auctionClaimedDB : DB :=
  { auctionDoneDB with
    transactions := [{ sampleTxRow "SIGOLD" "AUCTION_CLAIM" with
      sender := "winner"
      auctionId := some 1 }] }

/-- Store with a claimable raffle whose winner already claimed. -/
def raffleClaimedDB : DB :=
  { raffleWonDB with
    transactions := [{ sampleTxRow "SIGOLD" "RAFFLE_CLAIM" with
      sender := "winner"
      receiver := "rafflePda" }] }

/-- Store with an active raffle and an existing entry of 8 tickets. -/
def entryDB : DB :=
  { raffleDB with
    entries := [{ id := 1, raffleId := 1, userAddress := "user", quantity := 8 }] }

/-- A gumball creation payload whose window is degenerate. -/
def sampleGumballCreateBad : GumballCtrl.CreateData :=
  { sampleGumballCreate with endTime := 0 }

/-- An auction creation payload whose end precedes its start. -/
def sampleAuctionCreateBad : AuctionCtrl.CreateData :=
  { sampleAuctionCreateEq with endsAt := 100 }


/-- A gumball creation payload reusing the journal id "SIG1". -/
def dupGumballCreate : GumballCtrl.CreateData :=
  { sampleGumballCreate with txSignature := "SIG1" }

/-! ## General lemmas about the store -/

theorem commit_err (e : String) (st : DB) : commit (.error e) st = st := rfl

theorem commit_eq_of_error {r : Except String DB} {st : DB}
    (h : ∃ e, r = Except.error e) : commit r st = st := by
  obtain ⟨e, he⟩ := h
  rw [he]
  rfl

theorem error_of_isErr {r : Except String DB} (h : isErr r = true) :
    ∃ e, r = Except.error e := by
  cases r with
  | ok st => simp [isErr] at h
  | error e => exact ⟨e, rfl⟩

theorem eq_of_nodup_key {α β : Type} [DecidableEq β] {l : List α} {f : α → β}
    (hnd : (l.map f).Nodup) {a b : α} (ha : a ∈ l) (hb : b ∈ l)
    (hfe : f a = f b) : a = b := by
  induction l with
  | nil => cases ha
  | cons x t ih =>
    rw [List.map_cons, List.nodup_cons] at hnd
    rcases List.mem_cons.mp ha with rfl | ha' <;>
      rcases List.mem_cons.mp hb with h | hb'
    · exact h.symm ▸ rfl
    · exact absurd (by rw [hfe]; exact List.mem_map_of_mem f hb') hnd.1
    · exact absurd (by rw [← h, ← hfe]; exact List.mem_map_of_mem f ha') hnd.1
    · exact ih hnd.2 ha' hb'

theorem mem_listUpd {α} {l : List α} {p : α → Bool} {f : α → α} {x : α}
    (h : x ∈ listUpd l p f) : ∃ y ∈ l, x = if p y then f y else y := by
  simp only [listUpd, List.mem_map] at h
  obtain ⟨y, hy, hxy⟩ := h
  exact ⟨y, hy, hxy.symm⟩

theorem find?_listUpd {α} (l : List α) (p : α → Bool) (f : α → α)
    (hf : ∀ a, p (f a) = p a) : (listUpd l p f).find? p = (l.find? p).map f := by
  induction l with
  | nil => rfl
  | cons a t ih =>
    by_cases hpa : p a = true
    · rw [show listUpd (a :: t) p f = f a :: listUpd t p f by
        simp [listUpd, hpa]]
      rw [List.find?_cons_of_pos _ (by rw [hf]; exact hpa),
        List.find?_cons_of_pos _ hpa]
      rfl
    · rw [show listUpd (a :: t) p f = a :: listUpd t p f by
        simp [listUpd, hpa]]
      rw [List.find?_cons_of_neg _ hpa, List.find?_cons_of_neg _ hpa]
      exact ih

theorem find?_append_of_none {α} {l₁ l₂ : List α} {p : α → Bool}
    (h : l₁.find? p = none) : (l₁ ++ l₂).find? p = l₂.find? p := by
  induction l₁ with
  | nil => rfl
  | cons a t ih =>
    rw [List.cons_append]
    have hpa : ¬p a = true := by
      intro hpa
      rw [List.find?_cons_of_pos _ hpa] at h
      cases h
    rw [List.find?_cons_of_neg _ hpa]
    rw [List.find?_cons_of_neg _ hpa] at h
    exact ih h

theorem journalCount_eq_zero {st : DB} {t : Sig} (h : journalDup st t = none) :
    journalCount st t = 0 := by
  unfold journalDup dbFind at h
  unfold journalCount
  rw [List.length_eq_zero, List.filter_eq_nil_iff]
  exact fun a ha => by simpa using List.find?_eq_none.mp h a ha

theorem journal_facts {st st' : DB} {t : Sig} {row : TxRow}
    (hnone : journalDup st t = none)
    (htr : st'.transactions = st.transactions ++ [row])
    (hrow : row.transactionId = t) :
    journalCount st t = 0 ∧ journalCount st' t = 1 ∧
      ∃ r, journalDup st' t = some r := by
  have h0 : journalCount st t = 0 := journalCount_eq_zero hnone
  refine ⟨h0, ?_, ?_⟩
  · unfold journalCount at h0 ⊢
    rw [htr, List.filter_append]
    rw [List.length_eq_zero] at h0
    rw [h0]
    simp [hrow]
  · unfold journalDup dbFind at hnone ⊢
    rw [htr, find?_append_of_none hnone]
    exact ⟨row, by simp [hrow]⟩

/-! ## Per-operation duplicate and success lemmas -/
theorem buyTicket_ok_journal {v : Bool} {rid : Nat} {u : Addr} {q : Nat}
    {t : Sig} {st st' : DB}
    (hok : RaffleCtrl.buyTicket v rid u q t st = .ok st') :
    journalDup st t = none ∧
      ∃ row, st'.transactions = st.transactions ++ [row] ∧
        row.transactionId = t := by
  unfold RaffleCtrl.buyTicket at hok
  repeat' split at hok
  all_goals try exact Except.noConfusion hok
  all_goals
    injection hok with h
    subst h
    exact ⟨by assumption, _, rfl, rfl⟩

theorem raffleClaim_ok_journal {v : Bool} {rid : Nat} {u : Addr} {t : Sig}
    {st st' : DB} (hok : RaffleCtrl.claimPrize v rid u t st = .ok st') :
    journalDup st t = none ∧
      ∃ row, st'.transactions = st.transactions ++ [row] ∧
        row.transactionId = t := by
  unfold RaffleCtrl.claimPrize at hok
  repeat' split at hok
  all_goals try exact Except.noConfusion hok
  all_goals
    injection hok with h
    subst h
    exact ⟨by assumption, _, rfl, rfl⟩

theorem placeBid_ok_journal {v : Bool} {aid : Nat} {u : Addr} {amt : Money}
    {t : Sig} {now : Time} {st st' : DB}
    (hok : AuctionCtrl.placeBid v aid u amt t now st = .ok st') :
    journalDup st t = none ∧
      ∃ row, st'.transactions = st.transactions ++ [row] ∧
        row.transactionId = t := by
  unfold AuctionCtrl.placeBid at hok
  repeat' split at hok
  all_goals try exact Except.noConfusion hok
  all_goals
    injection hok with h
    subst h
    exact ⟨by assumption, _, rfl, rfl⟩

theorem claimAuction_ok_journal {v : Bool} {aid : Nat} {u : Addr} {t : Sig}
    {st st' : DB} (hok : AuctionCtrl.claimAuction v aid u t st = .ok st') :
    journalDup st t = none ∧
      ∃ row, st'.transactions = st.transactions ++ [row] ∧
        row.transactionId = t := by
  unfold AuctionCtrl.claimAuction at hok
  repeat' split at hok
  all_goals try exact Except.noConfusion hok
  all_goals
    injection hok with h
    subst h
    exact ⟨by assumption, _, rfl, rfl⟩

theorem createGumball_ok_journal {v : Bool} {d : GumballCtrl.CreateData}
    {now : Time} {st st' : DB}
    (hok : GumballCtrl.createGumball v d now st = .ok st') :
    journalDup st d.txSignature = none ∧
      ∃ row, st'.transactions = st.transactions ++ [row] ∧
        row.transactionId = d.txSignature := by
  unfold GumballCtrl.createGumball at hok
  repeat' split at hok
  all_goals try exact Except.noConfusion hok
  all_goals
    injection hok with h
    subst h
    exact ⟨by assumption, _, rfl, rfl⟩

theorem spin_ok_journal {v : Bool} {gid : Nat} {u : Addr} {t : Sig}
    {now : Time} {st st' : DB}
    (hok : GumballCtrl.spin v gid u t now st = .ok st') :
    journalDup st t = none ∧
      ∃ row, st'.transactions = st.transactions ++ [row] ∧
        row.transactionId = t := by
  unfold GumballCtrl.spin at hok
  repeat' split at hok
  all_goals try exact Except.noConfusion hok
  all_goals
    injection hok with h
    subst h
    exact ⟨by assumption, _, rfl, rfl⟩

theorem gumballClaim_ok_journal {v : Bool} {gid : Nat} {u : Addr}
    {sid pidx : Nat} {t : Sig} {now : Time} {st st' : DB}
    (hok : GumballCtrl.claimPrize v gid u sid pidx t now st = .ok st') :
    journalDup st t = none ∧
      ∃ row, st'.transactions = st.transactions ++ [row] ∧
        row.transactionId = t := by
  unfold GumballCtrl.claimPrize at hok
  repeat' split at hok
  all_goals try exact Except.noConfusion hok
  all_goals
    injection hok with h
    subst h
    exact ⟨by assumption, _, rfl, rfl⟩

theorem buyTicket_dup_err {v : Bool} {rid : Nat} {u : Addr} {q : Nat} {t : Sig}
    {st : DB} {r : TxRow} (h : journalDup st t = some r) :
    isErr (RaffleCtrl.buyTicket v rid u q t st) = true := by
  cases hres : RaffleCtrl.buyTicket v rid u q t st with
  | error e => rfl
  | ok st2 =>
    rw [(buyTicket_ok_journal hres).1] at h
    exact Option.noConfusion h

theorem raffleClaim_dup_err {v : Bool} {rid : Nat} {u : Addr} {t : Sig}
    {st : DB} {r : TxRow} (h : journalDup st t = some r) :
    isErr (RaffleCtrl.claimPrize v rid u t st) = true := by
  cases hres : RaffleCtrl.claimPrize v rid u t st with
  | error e => rfl
  | ok st2 =>
    rw [(raffleClaim_ok_journal hres).1] at h
    exact Option.noConfusion h

theorem placeBid_dup_err {v : Bool} {aid : Nat} {u : Addr} {amt : Money}
    {t : Sig} {now : Time} {st : DB} {r : TxRow}
    (h : journalDup st t = some r) :
    isErr (AuctionCtrl.placeBid v aid u amt t now st) = true := by
  cases hres : AuctionCtrl.placeBid v aid u amt t now st with
  | error e => rfl
  | ok st2 =>
    rw [(placeBid_ok_journal hres).1] at h
    exact Option.noConfusion h

theorem claimAuction_dup_err {v : Bool} {aid : Nat} {u : Addr} {t : Sig}
    {st : DB} {r : TxRow} (h : journalDup st t = some r) :
    isErr (AuctionCtrl.claimAuction v aid u t st) = true := by
  cases hres : AuctionCtrl.claimAuction v aid u t st with
  | error e => rfl
  | ok st2 =>
    rw [(claimAuction_ok_journal hres).1] at h
    exact Option.noConfusion h

theorem createGumball_dup_err {v : Bool} {d : GumballCtrl.CreateData}
    {now : Time} {st : DB} {r : TxRow} (h : journalDup st d.txSignature = some r) :
    isErr (GumballCtrl.createGumball v d now st) = true := by
  cases hres : GumballCtrl.createGumball v d now st with
  | error e => rfl
  | ok st2 =>
    rw [(createGumball_ok_journal hres).1] at h
    exact Option.noConfusion h

theorem spin_dup_err {v : Bool} {gid : Nat} {u : Addr} {t : Sig} {now : Time}
    {st : DB} {r : TxRow} (h : journalDup st t = some r) :
    isErr (GumballCtrl.spin v gid u t now st) = true := by
  cases hres : GumballCtrl.spin v gid u t now st with
  | error e => rfl
  | ok st2 =>
    rw [(spin_ok_journal hres).1] at h
    exact Option.noConfusion h

theorem gumballClaim_dup_err {v : Bool} {gid : Nat} {u : Addr} {sid pidx : Nat}
    {t : Sig} {now : Time} {st : DB} {r : TxRow}
    (h : journalDup st t = some r) :
    isErr (GumballCtrl.claimPrize v gid u sid pidx t now st) = true := by
  cases hres : GumballCtrl.claimPrize v gid u sid pidx t now st with
  | error e => rfl
  | ok st2 =>
    rw [(gumballClaim_ok_journal hres).1] at h
    exact Option.noConfusion h

/-! ## Capacity-preservation lemmas -/

theorem raffleCap_listUpd {l : List Raffle} {rid q : Nat} {raffle : Raffle}
    (hnd : (l.map Raffle.id).Nodup)
    (hfind : l.find? (fun r => r.id == rid) = some raffle)
    (hle : raffle.ticketSold + q ≤ raffle.ticketSupply)
    (hcap : ∀ r ∈ l, r.ticketSold ≤ r.ticketSupply) :
    ∀ r ∈ listUpd l (fun r => r.id == rid)
      (fun r => { r with ticketSold := raffle.ticketSold + q }),
      r.ticketSold ≤ r.ticketSupply := by
  intro x hx
  obtain ⟨y, hy, hxy⟩ := mem_listUpd hx
  by_cases hp : (y.id == rid) = true
  · have hmem := List.mem_of_find?_eq_some hfind
    have hpr0 : raffle.id = rid := by simpa using List.find?_some hfind
    have hyr : y = raffle := eq_of_nodup_key hnd hy hmem
      (by rw [beq_iff_eq.mp hp, hpr0])
    subst hyr
    rw [hxy, if_pos hp]
    exact hle
  · rw [hxy, if_neg hp]
    exact hcap y hy

theorem gumballCap_listUpd {l : List Gumball} {gid : Nat} {gumball : Gumball}
    (price : Money) (incU : Nat)
    (hnd : (l.map Gumball.id).Nodup)
    (hfind : l.find? (fun g => g.id == gid) = some gumball)
    (hlt : gumball.ticketsSold < gumball.totalTickets)
    (hcap : ∀ g ∈ l, g.ticketsSold ≤ g.totalTickets) :
    ∀ g ∈ listUpd l (fun g => g.id == gid)
      (fun g => { g with
        ticketsSold := g.ticketsSold + 1
        totalProceeds := g.totalProceeds + price
        uniqueBuyers := g.uniqueBuyers + incU }),
      g.ticketsSold ≤ g.totalTickets := by
  intro x hx
  obtain ⟨y, hy, hxy⟩ := mem_listUpd hx
  by_cases hp : (y.id == gid) = true
  · have hmem := List.mem_of_find?_eq_some hfind
    have hpr0 : gumball.id = gid := by simpa using List.find?_some hfind
    have hyr : y = gumball := eq_of_nodup_key hnd hy hmem
      (by rw [beq_iff_eq.mp hp, hpr0])
    subst hyr
    rw [hxy, if_pos hp]
    exact hlt
  · rw [hxy, if_neg hp]
    exact hcap y hy

theorem prizeCap_listUpd {l : List GumballPrize} {prize : GumballPrize}
    (hnd : (l.map GumballPrize.id).Nodup)
    (hmem : prize ∈ l)
    (hlt : prize.quantityClaimed < prize.quantity)
    (hcap : ∀ p ∈ l, p.quantityClaimed ≤ p.quantity) :
    ∀ p ∈ listUpd l (fun p => p.id == prize.id)
      (fun p => { p with quantityClaimed := p.quantityClaimed + 1 }),
      p.quantityClaimed ≤ p.quantity := by
  intro x hx
  obtain ⟨y, hy, hxy⟩ := mem_listUpd hx
  by_cases hp : (y.id == prize.id) = true
  · have hyr : y = prize := eq_of_nodup_key hnd hy hmem (beq_iff_eq.mp hp)
    subst hyr
    rw [hxy, if_pos hp]
    exact hlt
  · rw [hxy, if_neg hp]
    exact hcap y hy

theorem entryCap_upd {entries : List Entry} {raffles : List Raffle}
    {rid : Nat} {u : Addr} {q newSold : Nat} {raffle : Raffle} {entry : Entry}
    (hndR : (raffles.map Raffle.id).Nodup)
    (hndE : (entries.map Entry.id).Nodup)
    (hfind : raffles.find? (fun r => r.id == rid) = some raffle)
    (hentry : entries.find?
      (fun e => e.raffleId == rid && e.userAddress == u) = some entry)
    (hle : entry.quantity + q ≤ raffle.maxEntries)
    (hcap : ∀ e ∈ entries, ∀ r ∈ raffles, r.id = e.raffleId →
      e.quantity ≤ r.maxEntries) :
    ∀ e ∈ listUpd entries (fun e => e.id == entry.id)
        (fun e => { e with quantity := entry.quantity + q }),
      ∀ r ∈ listUpd raffles (fun r => r.id == rid)
          (fun r => { r with ticketSold := newSold }),
        r.id = e.raffleId → e.quantity ≤ r.maxEntries := by
  intro x hx z hz hid
  obtain ⟨y, hy, hxy⟩ := mem_listUpd hx
  obtain ⟨w, hw, hzw⟩ := mem_listUpd hz
  have hzid : z.id = w.id := by
    rw [hzw]
    by_cases hpw : (w.id == rid) = true <;> simp [hpw]
  have hzmax : z.maxEntries = w.maxEntries := by
    rw [hzw]
    by_cases hpw : (w.id == rid) = true <;> simp [hpw]
  by_cases hp : (y.id == entry.id) = true
  · have hyr : y = entry :=
      eq_of_nodup_key hndE hy (List.mem_of_find?_eq_some hentry)
        (beq_iff_eq.mp hp)
    have hxq : x.quantity = entry.quantity + q := by rw [hxy, if_pos hp]
    have hxr : x.raffleId = entry.raffleId := by rw [hxy, if_pos hp, hyr]
    have hpred : entry.raffleId = rid ∧ entry.userAddress = u := by
      simpa using List.find?_some hentry
    have hrid : entry.raffleId = rid := hpred.1
    have hfr : raffle.id = rid := by simpa using List.find?_some hfind
    have hwr : w = raffle :=
      eq_of_nodup_key hndR hw (List.mem_of_find?_eq_some hfind)
        (by rw [← hzid, hid, hxr, hrid, hfr])
    rw [hxq, hzmax, hwr]
    exact hle
  · have hxy' : x = y := by rw [hxy, if_neg hp]
    rw [hxy', hzmax]
    exact hcap y hy w hw (by rw [← hzid, hid, hxy'])

theorem entryCap_append {entries : List Entry} {raffles : List Raffle}
    {rid : Nat} {u : Addr} {q newSold eid : Nat} {raffle : Raffle}
    (hndR : (raffles.map Raffle.id).Nodup)
    (hfind : raffles.find? (fun r => r.id == rid) = some raffle)
    (hle : q ≤ raffle.maxEntries)
    (hcap : ∀ e ∈ entries, ∀ r ∈ raffles, r.id = e.raffleId →
      e.quantity ≤ r.maxEntries) :
    ∀ e ∈ entries ++
        [{ id := eid, raffleId := rid, userAddress := u, quantity := q }],
      ∀ r ∈ listUpd raffles (fun r => r.id == rid)
          (fun r => { r with ticketSold := newSold }),
        r.id = e.raffleId → e.quantity ≤ r.maxEntries := by
  intro x hx z hz hid
  obtain ⟨w, hw, hzw⟩ := mem_listUpd hz
  have hzid : z.id = w.id := by
    rw [hzw]
    by_cases hpw : (w.id == rid) = true <;> simp [hpw]
  have hzmax : z.maxEntries = w.maxEntries := by
    rw [hzw]
    by_cases hpw : (w.id == rid) = true <;> simp [hpw]
  rcases List.mem_append.mp hx with hxl | hxr
  · rw [hzmax]
    exact hcap x hxl w hw (by rw [← hzid, hid])
  · have hxe : x = ⟨eid, rid, u, q⟩ := by simpa using hxr
    have hfr : raffle.id = rid := by simpa using List.find?_some hfind
    have hwr : w = raffle :=
      eq_of_nodup_key hndR hw (List.mem_of_find?_eq_some hfind)
        (by rw [← hzid, hid, hxe, hfr])
    rw [hxe, hzmax, hwr]
    exact hle

/-! ## Claim theorems -/

/-- C2: `calculateWinner` is a pure deterministic function of its three
arguments: it fails when the revealed value is absent or all-zero;
otherwise it reads the first 8 bytes as an unsigned 64-bit little-endian
integer, reduces it modulo `totalItemsAvailable` and indexes `prizeMap`
with the pointer; in particular for `prizeMap = [7, 3, 9, 1]`, 4 slots and
first 8 revealed bytes equal to 10 little-endian it returns pointer 2 and
prize index 9. -/
theorem C2_calculateWinner :
    (∀ (rv : List Nat) (total : Nat) (pm : List Nat),
      rv.all (fun v => v == 0) = true →
        ∃ e, calculateWinner rv total pm = Except.error e) ∧
    (∀ (rv : List Nat) (total : Nat) (pm : List Nat),
      rv.all (fun v => v == 0) = false → 0 < total →
        calculateWinner rv total pm =
          Except.ok (leU64 (rv.take 8) % total,
            pm.get? (leU64 (rv.take 8) % total))) ∧
    calculateWinner [10, 0, 0, 0, 0, 0, 0, 0] 4 [7, 3, 9, 1] =
      Except.ok (2, some 9) := by
  refine ⟨?_, ?_, rfl⟩
  · intro rv total pm hall
    refine ⟨"Randomness not yet resolved", ?_⟩
    unfold calculateWinner
    simp [hall]
  · intro rv total pm hall htot
    have h0 : (total == 0) = false := by
      simp [Nat.pos_iff_ne_zero.mp htot]
    unfold calculateWinner
    simp [hall, h0]

theorem C2_witness :
    (List.all [0, 0] (fun v => v == 0) = true ∧
      ∃ e, calculateWinner [0, 0] 4 [1] = Except.error e) ∧
    (List.all [1, 0, 0, 0, 0, 0, 0, 0, 0] (fun v => v == 0) = false ∧
      0 < 3 ∧
      calculateWinner [1, 0, 0, 0, 0, 0, 0, 0, 0] 3 [5, 6, 7] =
        Except.ok (leU64 (List.take 8 [1, 0, 0, 0, 0, 0, 0, 0, 0]) % 3,
          List.get? [5, 6, 7]
            (leU64 (List.take 8 [1, 0, 0, 0, 0, 0, 0, 0, 0]) % 3))) :=
  ⟨⟨by decide, C2_calculateWinner.1 [0, 0] 4 [1] (by decide)⟩,
   ⟨by decide, by decide,
    C2_calculateWinner.2.1 [1, 0, 0, 0, 0, 0, 0, 0, 0] 3 [5, 6, 7]
      (by decide) (by decide)⟩⟩

/-- C6 counterexample: at a transport fault the source's `verifyTransaction`
has no try/catch, so the awaited RPC rejection propagates (an exception),
contradicting the claim that it returns `false` and never throws on
transport errors. -/
theorem C6_counterexample :
    verifyTransaction RpcReply.failure = Except.error () ∧
    verifyTransaction RpcReply.failure ≠ Except.ok false :=
  ⟨rfl, fun h => Except.noConfusion h⟩

/-- C6 amended: on every delivered RPC response `verifyTransaction` returns
a boolean without throwing, and returns `true` exactly when the status
exists, has no execution error and is confirmed or finalized (so `false`
covers missing transactions, failed transactions and pending statuses);
on a transport fault the underlying exception propagates instead of a
`false` return. -/
theorem C6_verifyTransaction_amended :
    (∀ v : Option SigStatus, ∃ b : Bool,
      verifyTransaction (.reply v) = Except.ok b) ∧
    (∀ v : Option SigStatus,
      (verifyTransaction (.reply v) = Except.ok true ↔
        ∃ tx, v = some tx ∧ tx.err = false ∧
          (tx.confirmationStatus = some .confirmed ∨
           tx.confirmationStatus = some .finalized))) ∧
    verifyTransaction RpcReply.failure = Except.error () := by
  refine ⟨?_, ?_, rfl⟩
  · intro v
    cases v with
    | none => exact ⟨false, rfl⟩
    | some tx =>
      by_cases h : tx.err = true
      · exact ⟨false, by simp [verifyTransaction, h]⟩
      · exact ⟨(tx.confirmationStatus == some .confirmed
          || tx.confirmationStatus == some .finalized),
          by simp [verifyTransaction, h]⟩
  · intro v
    cases v with
    | none => simp [verifyTransaction]
    | some tx =>
      by_cases h : tx.err = true
      · simp [verifyTransaction, h]
      · simp [verifyTransaction, h]

/-- C8: the bid soft-close rule.  `computeNewEndsAt` extends the end time
to `now` plus the configured extension (minutes, converted to
milliseconds) exactly when an extension is configured and the remaining
time is strictly below it, and leaves the end time unchanged otherwise;
and a committed `placeBid` writes exactly `computeNewEndsAt` (together
with the new highest bid) into the auction row. -/
theorem C8_softClose :
    (∀ (now : Time) (a : Auction) (te : Nat), a.timeExtension = some te →
      a.endsAt - now < (te : Int) * 60 * 1000 →
        AuctionCtrl.computeNewEndsAt now a = now + (te : Int) * 60 * 1000) ∧
    (∀ (now : Time) (a : Auction) (te : Nat), a.timeExtension = some te →
      (te : Int) * 60 * 1000 ≤ a.endsAt - now →
        AuctionCtrl.computeNewEndsAt now a = a.endsAt) ∧
    (∀ (now : Time) (a : Auction), a.timeExtension = none →
      AuctionCtrl.computeNewEndsAt now a = a.endsAt) ∧
    (∀ (v : Bool) (aid : Nat) (u : Addr) (amt : Money) (t : Sig) (now : Time)
        (st st' : DB) (a : Auction),
      dbFind st.auctions (fun x => x.id == aid) = some a →
      AuctionCtrl.placeBid v aid u amt t now st = Except.ok st' →
        dbFind st'.auctions (fun x => x.id == aid) =
          some { a with
            highestBidAmount := amt
            highestBidderWallet := some u
            hasAnyBid := true
            endsAt := AuctionCtrl.computeNewEndsAt now a }) := by
  refine ⟨?_, ?_, ?_, ?_⟩
  · intro now a te hte hlt
    unfold AuctionCtrl.computeNewEndsAt
    rw [hte]
    simp [hlt]
  · intro now a te hte hge
    unfold AuctionCtrl.computeNewEndsAt
    rw [hte]
    simp [not_lt.mpr hge]
  · intro now a hte
    unfold AuctionCtrl.computeNewEndsAt
    rw [hte]
  · intro v aid u amt t now st st' a ha hok
    unfold AuctionCtrl.placeBid at hok
    simp only [ha] at hok
    repeat' split at hok
    all_goals try exact Except.noConfusion hok
    injection hok with h
    subst h
    have hupd := find?_listUpd st.auctions (fun x => x.id == aid)
      (fun x => { x with
        highestBidAmount := amt
        highestBidderWallet := some u
        hasAnyBid := true
        endsAt := AuctionCtrl.computeNewEndsAt now a })
      (fun x => rfl)
    unfold dbFind at ha ⊢
    rw [hupd, ha]
    rfl

theorem C8_witness :
    sampleAuction.timeExtension = some 2 ∧
    sampleAuction.endsAt - 950000 < (2 : Int) * 60 * 1000 ∧
    AuctionCtrl.computeNewEndsAt 950000 sampleAuction =
      950000 + (2 : Int) * 60 * 1000 ∧
    dbFind ((commit (AuctionCtrl.placeBid true 1 "bidder" 100 "SIG1" 950000
        bidDB0) bidDB0).auctions) (fun x => x.id == 1) =
      some { sampleAuction with
        highestBidAmount := 100
        highestBidderWallet := some "bidder"
        hasAnyBid := true
        endsAt := AuctionCtrl.computeNewEndsAt 950000 sampleAuction } :=
  ⟨rfl, by decide, C8_softClose.1 950000 sampleAuction 2 rfl (by decide),
   C8_softClose.2.2.2 true 1 "bidder" 100 "SIG1" 950000 bidDB0 _ sampleAuction
     rfl rfl⟩

/-- C1: idempotency under the journal.  For each reconciliation operation
(raffle `buyTicket`, auction `placeBid`, gumball `spin`, gumball create,
and the three claim calls): when a journal row with the submitted external
transaction id already exists, the call aborts with an error and the
committed store is exactly the one before the call (no counter moves, no
second journal row); and when the call commits, it turns a journal with no
row for the id into one with exactly one, so that repeating the identical
call on the committed store aborts and changes nothing, leaving one
committed mutation and one journal row in total. -/
theorem C1_idempotency :
    (∀ (v : Bool) (rid : Nat) (u : Addr) (q : Nat) (t : Sig) (st : DB)
        (r : TxRow), journalDup st t = some r →
      isErr (RaffleCtrl.buyTicket v rid u q t st) = true ∧
      commit (RaffleCtrl.buyTicket v rid u q t st) st = st) ∧
    (∀ (v : Bool) (rid : Nat) (u : Addr) (q : Nat) (t : Sig) (st st' : DB),
      RaffleCtrl.buyTicket v rid u q t st = Except.ok st' →
      journalCount st t = 0 ∧ journalCount st' t = 1 ∧
      isErr (RaffleCtrl.buyTicket v rid u q t st') = true ∧
      commit (RaffleCtrl.buyTicket v rid u q t st') st' = st') ∧
    (∀ (v : Bool) (aid : Nat) (u : Addr) (amt : Money) (t : Sig) (now : Time)
        (st : DB) (r : TxRow), journalDup st t = some r →
      isErr (AuctionCtrl.placeBid v aid u amt t now st) = true ∧
      commit (AuctionCtrl.placeBid v aid u amt t now st) st = st) ∧
    (∀ (v : Bool) (aid : Nat) (u : Addr) (amt : Money) (t : Sig) (now : Time)
        (st st' : DB), AuctionCtrl.placeBid v aid u amt t now st = Except.ok st' →
      journalCount st t = 0 ∧ journalCount st' t = 1 ∧
      isErr (AuctionCtrl.placeBid v aid u amt t now st') = true ∧
      commit (AuctionCtrl.placeBid v aid u amt t now st') st' = st') ∧
    (∀ (v : Bool) (gid : Nat) (u : Addr) (t : Sig) (now : Time) (st : DB)
        (r : TxRow), journalDup st t = some r →
      isErr (GumballCtrl.spin v gid u t now st) = true ∧
      commit (GumballCtrl.spin v gid u t now st) st = st) ∧
    (∀ (v : Bool) (gid : Nat) (u : Addr) (t : Sig) (now : Time) (st st' : DB),
      GumballCtrl.spin v gid u t now st = Except.ok st' →
      journalCount st t = 0 ∧ journalCount st' t = 1 ∧
      isErr (GumballCtrl.spin v gid u t now st') = true ∧
      commit (GumballCtrl.spin v gid u t now st') st' = st') ∧
    (∀ (v : Bool) (d : GumballCtrl.CreateData) (now : Time) (st : DB)
        (r : TxRow), journalDup st d.txSignature = some r →
      isErr (GumballCtrl.createGumball v d now st) = true ∧
      commit (GumballCtrl.createGumball v d now st) st = st) ∧
    (∀ (v : Bool) (d : GumballCtrl.CreateData) (now : Time) (st st' : DB),
      GumballCtrl.createGumball v d now st = Except.ok st' →
      journalCount st d.txSignature = 0 ∧ journalCount st' d.txSignature = 1 ∧
      isErr (GumballCtrl.createGumball v d now st') = true ∧
      commit (GumballCtrl.createGumball v d now st') st' = st') ∧
    (∀ (v : Bool) (gid : Nat) (u : Addr) (sid pidx : Nat) (t : Sig)
        (now : Time) (st : DB) (r : TxRow), journalDup st t = some r →
      isErr (GumballCtrl.claimPrize v gid u sid pidx t now st) = true ∧
      commit (GumballCtrl.claimPrize v gid u sid pidx t now st) st = st) ∧
    (∀ (v : Bool) (gid : Nat) (u : Addr) (sid pidx : Nat) (t : Sig)
        (now : Time) (st st' : DB),
      GumballCtrl.claimPrize v gid u sid pidx t now st = Except.ok st' →
      journalCount st t = 0 ∧ journalCount st' t = 1 ∧
      isErr (GumballCtrl.claimPrize v gid u sid pidx t now st') = true ∧
      commit (GumballCtrl.claimPrize v gid u sid pidx t now st') st' = st') ∧
    (∀ (v : Bool) (aid : Nat) (u : Addr) (t : Sig) (st : DB) (r : TxRow),
      journalDup st t = some r →
      isErr (AuctionCtrl.claimAuction v aid u t st) = true ∧
      commit (AuctionCtrl.claimAuction v aid u t st) st = st) ∧
    (∀ (v : Bool) (aid : Nat) (u : Addr) (t : Sig) (st st' : DB),
      AuctionCtrl.claimAuction v aid u t st = Except.ok st' →
      journalCount st t = 0 ∧ journalCount st' t = 1 ∧
      isErr (AuctionCtrl.claimAuction v aid u t st') = true ∧
      commit (AuctionCtrl.claimAuction v aid u t st') st' = st') ∧
    (∀ (v : Bool) (rid : Nat) (u : Addr) (t : Sig) (st : DB) (r : TxRow),
      journalDup st t = some r →
      isErr (RaffleCtrl.claimPrize v rid u t st) = true ∧
      commit (RaffleCtrl.claimPrize v rid u t st) st = st) ∧
    (∀ (v : Bool) (rid : Nat) (u : Addr) (t : Sig) (st st' : DB),
      RaffleCtrl.claimPrize v rid u t st = Except.ok st' →
      journalCount st t = 0 ∧ journalCount st' t = 1 ∧
      isErr (RaffleCtrl.claimPrize v rid u t st') = true ∧
      commit (RaffleCtrl.claimPrize v rid u t st') st' = st') := by
  refine ⟨?_, ?_, ?_, ?_, ?_, ?_, ?_, ?_, ?_, ?_, ?_, ?_, ?_, ?_⟩
  · intro v rid u q t st r h
    have he : isErr (RaffleCtrl.buyTicket v rid u q t st) = true :=
      buyTicket_dup_err h
    exact ⟨he, commit_eq_of_error (error_of_isErr he)⟩
  · intro v rid u q t st st' hok
    obtain ⟨hnone, row, htr, hrow⟩ := buyTicket_ok_journal hok
    obtain ⟨h0, h1, r, hr⟩ := journal_facts hnone htr hrow
    have he : isErr (RaffleCtrl.buyTicket v rid u q t st') = true :=
      buyTicket_dup_err hr
    exact ⟨h0, h1, he, commit_eq_of_error (error_of_isErr he)⟩
  · intro v aid u amt t now st r h
    have he : isErr (AuctionCtrl.placeBid v aid u amt t now st) = true :=
      placeBid_dup_err h
    exact ⟨he, commit_eq_of_error (error_of_isErr he)⟩
  · intro v aid u amt t now st st' hok
    obtain ⟨hnone, row, htr, hrow⟩ := placeBid_ok_journal hok
    obtain ⟨h0, h1, r, hr⟩ := journal_facts hnone htr hrow
    have he : isErr (AuctionCtrl.placeBid v aid u amt t now st') = true :=
      placeBid_dup_err hr
    exact ⟨h0, h1, he, commit_eq_of_error (error_of_isErr he)⟩
  · intro v gid u t now st r h
    have he : isErr (GumballCtrl.spin v gid u t now st) = true :=
      spin_dup_err h
    exact ⟨he, commit_eq_of_error (error_of_isErr he)⟩
  · intro v gid u t now st st' hok
    obtain ⟨hnone, row, htr, hrow⟩ := spin_ok_journal hok
    obtain ⟨h0, h1, r, hr⟩ := journal_facts hnone htr hrow
    have he : isErr (GumballCtrl.spin v gid u t now st') = true :=
      spin_dup_err hr
    exact ⟨h0, h1, he, commit_eq_of_error (error_of_isErr he)⟩
  · intro v d now st r h
    have he : isErr (GumballCtrl.createGumball v d now st) = true :=
      createGumball_dup_err h
    exact ⟨he, commit_eq_of_error (error_of_isErr he)⟩
  · intro v d now st st' hok
    obtain ⟨hnone, row, htr, hrow⟩ := createGumball_ok_journal hok
    obtain ⟨h0, h1, r, hr⟩ := journal_facts hnone htr hrow
    have he : isErr (GumballCtrl.createGumball v d now st') = true :=
      createGumball_dup_err hr
    exact ⟨h0, h1, he, commit_eq_of_error (error_of_isErr he)⟩
  · intro v gid u sid pidx t now st r h
    have he : isErr (GumballCtrl.claimPrize v gid u sid pidx t now st)
        = true := gumballClaim_dup_err h
    exact ⟨he, commit_eq_of_error (error_of_isErr he)⟩
  · intro v gid u sid pidx t now st st' hok
    obtain ⟨hnone, row, htr, hrow⟩ := gumballClaim_ok_journal hok
    obtain ⟨h0, h1, r, hr⟩ := journal_facts hnone htr hrow
    have he : isErr (GumballCtrl.claimPrize v gid u sid pidx t now st')
        = true := gumballClaim_dup_err hr
    exact ⟨h0, h1, he, commit_eq_of_error (error_of_isErr he)⟩
  · intro v aid u t st r h
    have he : isErr (AuctionCtrl.claimAuction v aid u t st) = true :=
      claimAuction_dup_err h
    exact ⟨he, commit_eq_of_error (error_of_isErr he)⟩
  · intro v aid u t st st' hok
    obtain ⟨hnone, row, htr, hrow⟩ := claimAuction_ok_journal hok
    obtain ⟨h0, h1, r, hr⟩ := journal_facts hnone htr hrow
    have he : isErr (AuctionCtrl.claimAuction v aid u t st') = true :=
      claimAuction_dup_err hr
    exact ⟨h0, h1, he, commit_eq_of_error (error_of_isErr he)⟩
  · intro v rid u t st r h
    have he : isErr (RaffleCtrl.claimPrize v rid u t st) = true :=
      raffleClaim_dup_err h
    exact ⟨he, commit_eq_of_error (error_of_isErr he)⟩
  · intro v rid u t st st' hok
    obtain ⟨hnone, row, htr, hrow⟩ := raffleClaim_ok_journal hok
    obtain ⟨h0, h1, r, hr⟩ := journal_facts hnone htr hrow
    have he : isErr (RaffleCtrl.claimPrize v rid u t st') = true :=
      raffleClaim_dup_err hr
    exact ⟨h0, h1, he, commit_eq_of_error (error_of_isErr he)⟩

theorem C1_witness :
    (isErr (RaffleCtrl.buyTicket true 1 "user" 2 "SIG1" dupDB) = true ∧
      commit (RaffleCtrl.buyTicket true 1 "user" 2 "SIG1" dupDB) dupDB = dupDB) ∧
    (journalCount raffleDB "SIGBUY" = 0 ∧
      journalCount (commit (RaffleCtrl.buyTicket true 1 "user" 2 "SIGBUY" raffleDB) raffleDB) "SIGBUY" = 1 ∧
      isErr (RaffleCtrl.buyTicket true 1 "user" 2 "SIGBUY" (commit (RaffleCtrl.buyTicket true 1 "user" 2 "SIGBUY" raffleDB) raffleDB)) = true ∧
      commit (RaffleCtrl.buyTicket true 1 "user" 2 "SIGBUY" (commit (RaffleCtrl.buyTicket true 1 "user" 2 "SIGBUY" raffleDB) raffleDB)) (commit (RaffleCtrl.buyTicket true 1 "user" 2 "SIGBUY" raffleDB) raffleDB) = (commit (RaffleCtrl.buyTicket true 1 "user" 2 "SIGBUY" raffleDB) raffleDB)) ∧
    (isErr (AuctionCtrl.placeBid true 1 "bidder" 100 "SIG1" 950000 dupDB) = true ∧
      commit (AuctionCtrl.placeBid true 1 "bidder" 100 "SIG1" 950000 dupDB) dupDB = dupDB) ∧
    (journalCount bidDB0 "SIGBID" = 0 ∧
      journalCount (commit (AuctionCtrl.placeBid true 1 "bidder" 100 "SIGBID" 950000 bidDB0) bidDB0) "SIGBID" = 1 ∧
      isErr (AuctionCtrl.placeBid true 1 "bidder" 100 "SIGBID" 950000 (commit (AuctionCtrl.placeBid true 1 "bidder" 100 "SIGBID" 950000 bidDB0) bidDB0)) = true ∧
      commit (AuctionCtrl.placeBid true 1 "bidder" 100 "SIGBID" 950000 (commit (AuctionCtrl.placeBid true 1 "bidder" 100 "SIGBID" 950000 bidDB0) bidDB0)) (commit (AuctionCtrl.placeBid true 1 "bidder" 100 "SIGBID" 950000 bidDB0) bidDB0) = (commit (AuctionCtrl.placeBid true 1 "bidder" 100 "SIGBID" 950000 bidDB0) bidDB0)) ∧
    (isErr (GumballCtrl.spin true 1 "spinner" "SIG1" 100 dupDB) = true ∧
      commit (GumballCtrl.spin true 1 "spinner" "SIG1" 100 dupDB) dupDB = dupDB) ∧
    (journalCount gumballDB "SIGSPIN" = 0 ∧
      journalCount (commit (GumballCtrl.spin true 1 "spinner2" "SIGSPIN" 100 gumballDB) gumballDB) "SIGSPIN" = 1 ∧
      isErr (GumballCtrl.spin true 1 "spinner2" "SIGSPIN" 100 (commit (GumballCtrl.spin true 1 "spinner2" "SIGSPIN" 100 gumballDB) gumballDB)) = true ∧
      commit (GumballCtrl.spin true 1 "spinner2" "SIGSPIN" 100 (commit (GumballCtrl.spin true 1 "spinner2" "SIGSPIN" 100 gumballDB) gumballDB)) (commit (GumballCtrl.spin true 1 "spinner2" "SIGSPIN" 100 gumballDB) gumballDB) = (commit (GumballCtrl.spin true 1 "spinner2" "SIGSPIN" 100 gumballDB) gumballDB)) ∧
    (isErr (GumballCtrl.createGumball true dupGumballCreate 100 dupDB) = true ∧
      commit (GumballCtrl.createGumball true dupGumballCreate 100 dupDB) dupDB = dupDB) ∧
    (journalCount emptyDB sampleGumballCreate.txSignature = 0 ∧
      journalCount (commit (GumballCtrl.createGumball true sampleGumballCreate 100 emptyDB) emptyDB) sampleGumballCreate.txSignature = 1 ∧
      isErr (GumballCtrl.createGumball true sampleGumballCreate 100 (commit (GumballCtrl.createGumball true sampleGumballCreate 100 emptyDB) emptyDB)) = true ∧
      commit (GumballCtrl.createGumball true sampleGumballCreate 100 (commit (GumballCtrl.createGumball true sampleGumballCreate 100 emptyDB) emptyDB)) (commit (GumballCtrl.createGumball true sampleGumballCreate 100 emptyDB) emptyDB) = (commit (GumballCtrl.createGumball true sampleGumballCreate 100 emptyDB) emptyDB)) ∧
    (isErr (GumballCtrl.claimPrize true 1 "spinner" 21 0 "SIG1" 100 dupDB) = true ∧
      commit (GumballCtrl.claimPrize true 1 "spinner" 21 0 "SIG1" 100 dupDB) dupDB = dupDB) ∧
    (journalCount gumballDB "SIGGCLAIM" = 0 ∧
      journalCount (commit (GumballCtrl.claimPrize true 1 "spinner" 21 0 "SIGGCLAIM" 100 gumballDB) gumballDB) "SIGGCLAIM" = 1 ∧
      isErr (GumballCtrl.claimPrize true 1 "spinner" 21 0 "SIGGCLAIM" 100 (commit (GumballCtrl.claimPrize true 1 "spinner" 21 0 "SIGGCLAIM" 100 gumballDB) gumballDB)) = true ∧
      commit (GumballCtrl.claimPrize true 1 "spinner" 21 0 "SIGGCLAIM" 100 (commit (GumballCtrl.claimPrize true 1 "spinner" 21 0 "SIGGCLAIM" 100 gumballDB) gumballDB)) (commit (GumballCtrl.claimPrize true 1 "spinner" 21 0 "SIGGCLAIM" 100 gumballDB) gumballDB) = (commit (GumballCtrl.claimPrize true 1 "spinner" 21 0 "SIGGCLAIM" 100 gumballDB) gumballDB)) ∧
    (isErr (AuctionCtrl.claimAuction true 1 "winner" "SIG1" dupDB) = true ∧
      commit (AuctionCtrl.claimAuction true 1 "winner" "SIG1" dupDB) dupDB = dupDB) ∧
    (journalCount auctionDoneDB "SIGACLAIM" = 0 ∧
      journalCount (commit (AuctionCtrl.claimAuction true 1 "winner" "SIGACLAIM" auctionDoneDB) auctionDoneDB) "SIGACLAIM" = 1 ∧
      isErr (AuctionCtrl.claimAuction true 1 "winner" "SIGACLAIM" (commit (AuctionCtrl.claimAuction true 1 "winner" "SIGACLAIM" auctionDoneDB) auctionDoneDB)) = true ∧
      commit (AuctionCtrl.claimAuction true 1 "winner" "SIGACLAIM" (commit (AuctionCtrl.claimAuction true 1 "winner" "SIGACLAIM" auctionDoneDB) auctionDoneDB)) (commit (AuctionCtrl.claimAuction true 1 "winner" "SIGACLAIM" auctionDoneDB) auctionDoneDB) = (commit (AuctionCtrl.claimAuction true 1 "winner" "SIGACLAIM" auctionDoneDB) auctionDoneDB)) ∧
    (isErr (RaffleCtrl.claimPrize true 1 "winner" "SIG1" dupDB) = true ∧
      commit (RaffleCtrl.claimPrize true 1 "winner" "SIG1" dupDB) dupDB = dupDB) ∧
    (journalCount raffleWonDB "SIGRCLAIM" = 0 ∧
      journalCount (commit (RaffleCtrl.claimPrize true 1 "winner" "SIGRCLAIM" raffleWonDB) raffleWonDB) "SIGRCLAIM" = 1 ∧
      isErr (RaffleCtrl.claimPrize true 1 "winner" "SIGRCLAIM" (commit (RaffleCtrl.claimPrize true 1 "winner" "SIGRCLAIM" raffleWonDB) raffleWonDB)) = true ∧
      commit (RaffleCtrl.claimPrize true 1 "winner" "SIGRCLAIM" (commit (RaffleCtrl.claimPrize true 1 "winner" "SIGRCLAIM" raffleWonDB) raffleWonDB)) (commit (RaffleCtrl.claimPrize true 1 "winner" "SIGRCLAIM" raffleWonDB) raffleWonDB) = (commit (RaffleCtrl.claimPrize true 1 "winner" "SIGRCLAIM" raffleWonDB) raffleWonDB)) :=
  ⟨C1_idempotency.1 true 1 "user" 2 "SIG1" dupDB
     (sampleTxRow "SIG1" "GUMBALL_SPIN") rfl,
C1_idempotency.2.1 true 1 "user" 2 "SIGBUY" raffleDB
     (commit (RaffleCtrl.buyTicket true 1 "user" 2 "SIGBUY" raffleDB) raffleDB) rfl,
C1_idempotency.2.2.1 true 1 "bidder" 100 "SIG1" 950000 dupDB
     (sampleTxRow "SIG1" "GUMBALL_SPIN") rfl,
C1_idempotency.2.2.2.1 true 1 "bidder" 100 "SIGBID" 950000 bidDB0
     (commit (AuctionCtrl.placeBid true 1 "bidder" 100 "SIGBID" 950000 bidDB0) bidDB0) rfl,
C1_idempotency.2.2.2.2.1 true 1 "spinner" "SIG1" 100 dupDB
     (sampleTxRow "SIG1" "GUMBALL_SPIN") rfl,
C1_idempotency.2.2.2.2.2.1 true 1 "spinner2" "SIGSPIN" 100 gumballDB
     (commit (GumballCtrl.spin true 1 "spinner2" "SIGSPIN" 100 gumballDB) gumballDB) rfl,
C1_idempotency.2.2.2.2.2.2.1 true dupGumballCreate 100 dupDB
     (sampleTxRow "SIG1" "GUMBALL_SPIN") rfl,
C1_idempotency.2.2.2.2.2.2.2.1 true sampleGumballCreate 100 emptyDB
     (commit (GumballCtrl.createGumball true sampleGumballCreate 100 emptyDB) emptyDB) rfl,
C1_idempotency.2.2.2.2.2.2.2.2.1 true 1 "spinner" 21 0 "SIG1" 100 dupDB
     (sampleTxRow "SIG1" "GUMBALL_SPIN") rfl,
C1_idempotency.2.2.2.2.2.2.2.2.2.1 true 1 "spinner" 21 0 "SIGGCLAIM" 100 gumballDB
     (commit (GumballCtrl.claimPrize true 1 "spinner" 21 0 "SIGGCLAIM" 100 gumballDB) gumballDB) rfl,
C1_idempotency.2.2.2.2.2.2.2.2.2.2.1 true 1 "winner" "SIG1" dupDB
     (sampleTxRow "SIG1" "GUMBALL_SPIN") rfl,
C1_idempotency.2.2.2.2.2.2.2.2.2.2.2.1 true 1 "winner" "SIGACLAIM" auctionDoneDB
     (commit (AuctionCtrl.claimAuction true 1 "winner" "SIGACLAIM" auctionDoneDB) auctionDoneDB) rfl,
C1_idempotency.2.2.2.2.2.2.2.2.2.2.2.2.1 true 1 "winner" "SIG1" dupDB
     (sampleTxRow "SIG1" "GUMBALL_SPIN") rfl,
C1_idempotency.2.2.2.2.2.2.2.2.2.2.2.2.2 true 1 "winner" "SIGRCLAIM" raffleWonDB
     (commit (RaffleCtrl.claimPrize true 1 "winner" "SIGRCLAIM" raffleWonDB) raffleWonDB) rfl⟩

/-- C5 counterexample: `createRaffle` commits its mutation although the
Ledger Verifier answers false for the submitted signature — the source's
`verifyTransaction` call is commented out — so the committed store gains a
raffle row and a journal row; the claim fails for the raffle create call. -/
theorem C5_counterexample :
    isErr (RaffleCtrl.createRaffle false sampleRaffleCreate 100 emptyDB)
      = false ∧
    commit (RaffleCtrl.createRaffle false sampleRaffleCreate 100 emptyDB)
      emptyDB ≠ emptyDB ∧
    journalCount (commit (RaffleCtrl.createRaffle false sampleRaffleCreate 100
      emptyDB) emptyDB) "SIG_RAFFLE_CREATE" = 1 :=
  ⟨rfl, by decide, rfl⟩

/-- C5 amended: every modeled state-mutating reconciliation call except
raffle creation aborts with an error and commits no state change when the
Ledger Verifier returns false for the submitted signature; `createRaffle`
never consults the verifier (its call is commented out in the source), so
its outcome is identical whatever the verifier would answer. -/
theorem C5_verifier_gating :
    (∀ (rid : Nat) (u : Addr) (q : Nat) (t : Sig) (st : DB),
      isErr (RaffleCtrl.buyTicket false rid u q t st) = true ∧
      commit (RaffleCtrl.buyTicket false rid u q t st) st = st) ∧
    (∀ (rid : Nat) (u : Addr) (t : Sig) (st : DB),
      isErr (RaffleCtrl.claimPrize false rid u t st) = true ∧
      commit (RaffleCtrl.claimPrize false rid u t st) st = st) ∧
    (∀ (rid : Nat) (u : Addr) (t : Sig) (st : DB),
      isErr (RaffleCtrl.cancelRaffle false rid u t st) = true ∧
      commit (RaffleCtrl.cancelRaffle false rid u t st) st = st) ∧
    (∀ (d : AuctionCtrl.CreateData) (now : Time) (st : DB),
      isErr (AuctionCtrl.createAuction false d now st) = true ∧
      commit (AuctionCtrl.createAuction false d now st) st = st) ∧
    (∀ (aid : Nat) (u : Addr) (amt : Money) (t : Sig) (now : Time) (st : DB),
      isErr (AuctionCtrl.placeBid false aid u amt t now st) = true ∧
      commit (AuctionCtrl.placeBid false aid u amt t now st) st = st) ∧
    (∀ (aid : Nat) (u : Addr) (t : Sig) (st : DB),
      isErr (AuctionCtrl.claimAuction false aid u t st) = true ∧
      commit (AuctionCtrl.claimAuction false aid u t st) st = st) ∧
    (∀ (aid : Nat) (u : Addr) (t : Sig) (st : DB),
      isErr (AuctionCtrl.cancelAuction false aid u t st) = true ∧
      commit (AuctionCtrl.cancelAuction false aid u t st) st = st) ∧
    (∀ (d : GumballCtrl.CreateData) (now : Time) (st : DB),
      isErr (GumballCtrl.createGumball false d now st) = true ∧
      commit (GumballCtrl.createGumball false d now st) st = st) ∧
    (∀ (gid : Nat) (u : Addr) (t : Sig) (now : Time) (st : DB),
      isErr (GumballCtrl.spin false gid u t now st) = true ∧
      commit (GumballCtrl.spin false gid u t now st) st = st) ∧
    (∀ (gid : Nat) (u : Addr) (sid pidx : Nat) (t : Sig) (now : Time)
        (st : DB),
      isErr (GumballCtrl.claimPrize false gid u sid pidx t now st) = true ∧
      commit (GumballCtrl.claimPrize false gid u sid pidx t now st) st = st) ∧
    (∀ (gid : Nat) (u : Addr) (t : Sig) (st : DB),
      isErr (GumballCtrl.activateGumball false gid u t st) = true ∧
      commit (GumballCtrl.activateGumball false gid u t st) st = st) ∧
    (∀ (gid : Nat) (u : Addr) (t : Sig) (st : DB),
      isErr (GumballCtrl.cancelGumball false gid u t st) = true ∧
      commit (GumballCtrl.cancelGumball false gid u t st) st = st) ∧
    (∀ (b : Bool) (d : RaffleCtrl.CreateData) (now : Time) (st : DB),
      RaffleCtrl.createRaffle b d now st =
        RaffleCtrl.createRaffle true d now st) := by
  have hca : ∀ (d : AuctionCtrl.CreateData) (now : Time) (st : DB),
      isErr (AuctionCtrl.createAuction false d now st) = true := by
    intro d now st
    cases hres : AuctionCtrl.createAuction false d now st with
    | error e => rfl
    | ok st' =>
      exfalso
      unfold AuctionCtrl.createAuction at hres
      repeat' split at hres
      all_goals try exact Except.noConfusion hres
      all_goals simp_all
  have hcg : ∀ (d : GumballCtrl.CreateData) (now : Time) (st : DB),
      isErr (GumballCtrl.createGumball false d now st) = true := by
    intro d now st
    cases hres : GumballCtrl.createGumball false d now st with
    | error e => rfl
    | ok st' =>
      exfalso
      unfold GumballCtrl.createGumball at hres
      repeat' split at hres
      all_goals try exact Except.noConfusion hres
      all_goals simp_all
  refine ⟨fun rid u q t st => ⟨rfl, rfl⟩,
    fun rid u t st => ⟨rfl, rfl⟩,
    fun rid u t st => ⟨rfl, rfl⟩,
    fun d now st => ⟨hca d now st,
      commit_eq_of_error (error_of_isErr (hca d now st))⟩,
    fun aid u amt t now st => ⟨rfl, rfl⟩,
    fun aid u t st => ⟨rfl, rfl⟩,
    fun aid u t st => ⟨rfl, rfl⟩,
    fun d now st => ⟨hcg d now st,
      commit_eq_of_error (error_of_isErr (hcg d now st))⟩,
    fun gid u t now st => ⟨rfl, rfl⟩,
    fun gid u sid pidx t now st => ⟨rfl, rfl⟩,
    fun gid u t st => ⟨rfl, rfl⟩,
    fun gid u t st => ⟨rfl, rfl⟩,
    fun b d now st => rfl⟩

/-- C7 counterexample: at a store whose journal already holds "SIG1", a
retried `spin` with the same id is reported through
`responseHandler.error` (the thrown "Transaction already exists"), not as
a benign success, although the store is left unchanged. -/
theorem C7_counterexample :
    GumballCtrl.spin true 1 "spinner" "SIG1" 100 dupSpinDB =
      Except.error "Transaction already exists" ∧
    isErr (GumballCtrl.spin true 1 "spinner" "SIG1" 100 dupSpinDB) = true ∧
    commit (GumballCtrl.spin true 1 "spinner" "SIG1" 100 dupSpinDB) dupSpinDB
      = dupSpinDB :=
  ⟨rfl, rfl, rfl⟩

/-- C7 amended: when the journal lookup finds an existing row for the same
external transaction id, the call aborts with the error
"Transaction already exists" — surfaced to the caller as an error
response, distinguishable by its message — and the committed store is
unchanged (a no-op on state, but not a success outcome). -/
theorem C7_duplicate_is_error :
    (∀ (gid : Nat) (u : Addr) (t : Sig) (now : Time) (st : DB) (r : TxRow),
      journalDup st t = some r →
      GumballCtrl.spin true gid u t now st =
        Except.error "Transaction already exists" ∧
      commit (GumballCtrl.spin true gid u t now st) st = st) ∧
    (∀ (d : GumballCtrl.CreateData) (now : Time) (st : DB) (r : TxRow),
      d.startTime < d.endTime →
      journalDup st d.txSignature = some r →
      GumballCtrl.createGumball true d now st =
        Except.error "Transaction already exists" ∧
      commit (GumballCtrl.createGumball true d now st) st = st) := by
  constructor
  · intro gid u t now st r h
    have he : GumballCtrl.spin true gid u t now st =
        Except.error "Transaction already exists" := by
      unfold GumballCtrl.spin
      simp [h]
    exact ⟨he, by rw [he]; rfl⟩
  · intro d now st r hlt h
    have he : GumballCtrl.createGumball true d now st =
        Except.error "Transaction already exists" := by
      unfold GumballCtrl.createGumball
      simp [h, not_le.mpr hlt]
    exact ⟨he, by rw [he]; rfl⟩

theorem C7_witness :
    (journalDup dupSpinDB "SIG1" =
      some (sampleTxRow "SIG1" "GUMBALL_SPIN") ∧
    GumballCtrl.spin true 1 "spinner" "SIG1" 100 dupSpinDB =
      Except.error "Transaction already exists" ∧
    commit (GumballCtrl.spin true 1 "spinner" "SIG1" 100 dupSpinDB) dupSpinDB
      = dupSpinDB) ∧
    (dupGumballCreate.startTime < dupGumballCreate.endTime ∧
    journalDup dupDB dupGumballCreate.txSignature =
      some (sampleTxRow "SIG1" "GUMBALL_SPIN") ∧
    GumballCtrl.createGumball true dupGumballCreate 100 dupDB =
      Except.error "Transaction already exists" ∧
    commit (GumballCtrl.createGumball true dupGumballCreate 100 dupDB) dupDB
      = dupDB) :=
  ⟨⟨rfl,
    (C7_duplicate_is_error.1 1 "spinner" "SIG1" 100 dupSpinDB
      (sampleTxRow "SIG1" "GUMBALL_SPIN") rfl).1,
    (C7_duplicate_is_error.1 1 "spinner" "SIG1" 100 dupSpinDB
      (sampleTxRow "SIG1" "GUMBALL_SPIN") rfl).2⟩,
   ⟨by decide, rfl,
    (C7_duplicate_is_error.2 dupGumballCreate 100 dupDB
      (sampleTxRow "SIG1" "GUMBALL_SPIN") (by decide) rfl).1,
    (C7_duplicate_is_error.2 dupGumballCreate 100 dupDB
      (sampleTxRow "SIG1" "GUMBALL_SPIN") (by decide) rfl).2⟩⟩

/-- C9 counterexample: an auction creation whose end time equals its start
time is accepted (`createAuction` rejects only `endsAt < startsAt`), so
"end strictly after start" is not enforced for auctions. -/
theorem C9_counterexample :
    sampleAuctionCreateEq.startsAt = some 500 ∧
    sampleAuctionCreateEq.endsAt = 500 ∧
    isErr (AuctionCtrl.createAuction true sampleAuctionCreateEq 100 emptyDB)
      = false :=
  ⟨rfl, rfl, rfl⟩

/-- C9 amended: `createGumball` rejects unless the end time is strictly
after the start time; `createAuction` rejects with "Invalid endsAt" only
when the end time is strictly before the start time (equal bounds are
accepted); and an accepted campaign's initial status is ACTIVE when the
start time is already past at creation and INITIALIZED otherwise. -/
theorem C9_create_guards :
    (∀ (v : Bool) (d : GumballCtrl.CreateData) (now : Time) (st : DB),
      d.endTime ≤ d.startTime →
      isErr (GumballCtrl.createGumball v d now st) = true ∧
      commit (GumballCtrl.createGumball v d now st) st = st) ∧
    (∀ (v : Bool) (d : GumballCtrl.CreateData) (now : Time) (st st' : DB),
      GumballCtrl.createGumball v d now st = Except.ok st' →
      d.startTime < d.endTime ∧
      ∃ g, st'.gumballs = st.gumballs ++ [g] ∧
        g.status = (if d.startTime ≤ now then "ACTIVE" else "INITIALIZED")) ∧
    (∀ (v : Bool) (d : AuctionCtrl.CreateData) (now : Time) (st : DB)
        (s : Time), d.startsAt = some s → d.endsAt < s →
      isErr (AuctionCtrl.createAuction v d now st) = true ∧
      commit (AuctionCtrl.createAuction v d now st) st = st) ∧
    (∀ (v : Bool) (d : AuctionCtrl.CreateData) (now : Time) (st : DB),
      AuctionCtrl.createAuction v d now st = Except.error "Invalid endsAt" →
      ∃ s, d.startsAt = some s ∧ d.endsAt < s) ∧
    (∀ (v : Bool) (d : AuctionCtrl.CreateData) (now : Time) (st st' : DB),
      AuctionCtrl.createAuction v d now st = Except.ok st' →
      ∃ a, st'.auctions = st.auctions ++ [a] ∧
        a.status = (match d.startsAt with
          | some s => if s ≤ now then "ACTIVE" else "INITIALIZED"
          | none => "INITIALIZED")) := by
  refine ⟨?_, ?_, ?_, ?_, ?_⟩
  · intro v d now st hle
    have he : isErr (GumballCtrl.createGumball v d now st) = true := by
      cases hres : GumballCtrl.createGumball v d now st with
      | error e => rfl
      | ok st' =>
        exfalso
        unfold GumballCtrl.createGumball at hres
        repeat' split at hres
        all_goals exact Except.noConfusion hres
    exact ⟨he, commit_eq_of_error (error_of_isErr he)⟩
  · intro v d now st st' hok
    unfold GumballCtrl.createGumball at hok
    repeat' split at hok
    all_goals try exact Except.noConfusion hok
    all_goals
      injection hok with h
      subst h
      refine ⟨not_le.mp (by assumption), _, rfl, ?_⟩
      first
        | rw [if_pos (by assumption)]
        | rw [if_neg (by assumption)]
  · intro v d now st s hs hlt
    have he : isErr (AuctionCtrl.createAuction v d now st) = true := by
      cases hres : AuctionCtrl.createAuction v d now st with
      | error e => rfl
      | ok st' =>
        exfalso
        unfold AuctionCtrl.createAuction at hres
        repeat' split at hres
        all_goals try exact Except.noConfusion hres
        all_goals simp_all
    exact ⟨he, commit_eq_of_error (error_of_isErr he)⟩
  · intro v d now st h
    unfold AuctionCtrl.createAuction at h
    split at h
    next hc =>
      cases hsa : d.startsAt with
      | none => rw [hsa] at hc; cases hc
      | some s0 =>
        rw [hsa] at hc
        exact ⟨s0, rfl, of_decide_eq_true hc⟩
    next hc =>
      exfalso
      repeat' split at h
      all_goals simp_all
  · intro v d now st st' hok
    unfold AuctionCtrl.createAuction at hok
    repeat' split at hok
    all_goals try exact Except.noConfusion hok
    all_goals
      injection hok with h
      subst h
      refine ⟨_, rfl, ?_⟩
      try simp_all
      try rw [if_neg (not_le.mpr (by assumption))]

theorem C9_witness :
    (sampleGumballCreateBad.endTime ≤ sampleGumballCreateBad.startTime ∧
      isErr (GumballCtrl.createGumball true sampleGumballCreateBad 100 emptyDB)
        = true ∧
      commit (GumballCtrl.createGumball true sampleGumballCreateBad 100
        emptyDB) emptyDB = emptyDB) ∧
    (∃ g, (commit (GumballCtrl.createGumball true sampleGumballCreate 100
        emptyDB) emptyDB).gumballs = emptyDB.gumballs ++ [g] ∧
      g.status = (if sampleGumballCreate.startTime ≤ 100 then "ACTIVE"
        else "INITIALIZED")) ∧
    (sampleAuctionCreateBad.startsAt = some 500 ∧
      sampleAuctionCreateBad.endsAt < 500 ∧
      isErr (AuctionCtrl.createAuction true sampleAuctionCreateBad 100 emptyDB)
        = true ∧
      commit (AuctionCtrl.createAuction true sampleAuctionCreateBad 100
        emptyDB) emptyDB = emptyDB) ∧
    (∃ s, sampleAuctionCreateBad.startsAt = some s ∧
      sampleAuctionCreateBad.endsAt < s) ∧
    (∃ a, (commit (AuctionCtrl.createAuction true sampleAuctionCreateEq 100
        emptyDB) emptyDB).auctions = emptyDB.auctions ++ [a] ∧
      a.status = (match sampleAuctionCreateEq.startsAt with
        | some s => if s ≤ (100 : Int) then "ACTIVE" else "INITIALIZED"
        | none => "INITIALIZED")) :=
  ⟨⟨by decide,
    (C9_create_guards.1 true sampleGumballCreateBad 100 emptyDB (by decide)).1,
    (C9_create_guards.1 true sampleGumballCreateBad 100 emptyDB (by decide)).2⟩,
   (C9_create_guards.2.1 true sampleGumballCreate 100 emptyDB
     (commit (GumballCtrl.createGumball true sampleGumballCreate 100 emptyDB)
       emptyDB) rfl).2,
   ⟨rfl, by decide,
    (C9_create_guards.2.2.1 true sampleAuctionCreateBad 100 emptyDB 500 rfl
      (by decide)).1,
    (C9_create_guards.2.2.1 true sampleAuctionCreateBad 100 emptyDB 500 rfl
      (by decide)).2⟩,
   C9_create_guards.2.2.2.1 true sampleAuctionCreateBad 100 emptyDB rfl,
   C9_create_guards.2.2.2.2 true sampleAuctionCreateEq 100 emptyDB
     (commit (AuctionCtrl.createAuction true sampleAuctionCreateEq 100 emptyDB)
       emptyDB) rfl⟩

/-- C3: capacity invariants.  Raffle `ticketSold ≤ ticketSupply`, gumball
`ticketsSold ≤ totalTickets` and per-prize `quantityClaimed ≤ quantity`
are preserved by the corresponding calls (under the primary-key uniqueness
the database guarantees), and a call that would exceed a cap — a purchase
with `ticketSold + quantity > ticketSupply`, a spin on a sold-out gumball,
a claim on an exhausted prize — aborts with an error before any committed
mutation. -/
theorem C3_capacity :
    (∀ (v : Bool) (rid : Nat) (u : Addr) (q : Nat) (t : Sig) (st : DB),
      (st.raffles.map Raffle.id).Nodup → RaffleCap st →
      RaffleCap (commit (RaffleCtrl.buyTicket v rid u q t st) st)) ∧
    (∀ (v : Bool) (rid : Nat) (u : Addr) (q : Nat) (t : Sig) (st : DB)
        (raffle : Raffle),
      dbFind st.raffles (fun r => r.id == rid) = some raffle →
      raffle.ticketSold + q > raffle.ticketSupply →
      isErr (RaffleCtrl.buyTicket v rid u q t st) = true ∧
      commit (RaffleCtrl.buyTicket v rid u q t st) st = st) ∧
    (∀ (v : Bool) (gid : Nat) (u : Addr) (t : Sig) (now : Time) (st : DB),
      (st.gumballs.map Gumball.id).Nodup → GumballCap st →
      GumballCap (commit (GumballCtrl.spin v gid u t now st) st)) ∧
    (∀ (v : Bool) (gid : Nat) (u : Addr) (t : Sig) (now : Time) (st : DB)
        (g : Gumball),
      dbFind st.gumballs (fun x => x.id == gid) = some g →
      g.ticketsSold ≥ g.totalTickets →
      isErr (GumballCtrl.spin v gid u t now st) = true ∧
      commit (GumballCtrl.spin v gid u t now st) st = st) ∧
    (∀ (v : Bool) (gid : Nat) (u : Addr) (sid pidx : Nat) (t : Sig)
        (now : Time) (st : DB),
      (st.gumballPrizes.map GumballPrize.id).Nodup → PrizeCap st →
      PrizeCap (commit (GumballCtrl.claimPrize v gid u sid pidx t now st) st)) ∧
    (∀ (v : Bool) (gid : Nat) (u : Addr) (sid pidx : Nat) (t : Sig)
        (now : Time) (st : DB) (p : GumballPrize),
      dbFind st.gumballPrizes
        (fun x => x.gumballId == gid && x.prizeIndex == pidx) = some p →
      p.quantityClaimed ≥ p.quantity →
      isErr (GumballCtrl.claimPrize v gid u sid pidx t now st) = true ∧
      commit (GumballCtrl.claimPrize v gid u sid pidx t now st) st = st) := by
  refine ⟨?_, ?_, ?_, ?_, ?_, ?_⟩
  · intro v rid u q t st hnd hcap
    cases hres : RaffleCtrl.buyTicket v rid u q t st with
    | error e => exact hcap
    | ok st' =>
      unfold RaffleCtrl.buyTicket at hres
      repeat' split at hres
      all_goals try exact Except.noConfusion hres
      all_goals
        injection hres with h
        subst h
        exact raffleCap_listUpd hnd (by assumption)
          (not_lt.mp (by assumption)) hcap
  · intro v rid u q t st raffle hfind hover
    have he : isErr (RaffleCtrl.buyTicket v rid u q t st) = true := by
      cases hres : RaffleCtrl.buyTicket v rid u q t st with
      | error e => rfl
      | ok st' =>
        exfalso
        unfold RaffleCtrl.buyTicket at hres
        simp only [hfind] at hres
        repeat' split at hres
        all_goals exact Except.noConfusion hres
    exact ⟨he, commit_eq_of_error (error_of_isErr he)⟩
  · intro v gid u t now st hnd hcap
    cases hres : GumballCtrl.spin v gid u t now st with
    | error e => exact hcap
    | ok st' =>
      unfold GumballCtrl.spin at hres
      repeat' split at hres
      all_goals try exact Except.noConfusion hres
      all_goals
        injection hres with h
        subst h
        exact gumballCap_listUpd _ _ hnd (by assumption)
          (not_le.mp (by assumption)) hcap
  · intro v gid u t now st g hfind hover
    have he : isErr (GumballCtrl.spin v gid u t now st) = true := by
      cases hres : GumballCtrl.spin v gid u t now st with
      | error e => rfl
      | ok st' =>
        exfalso
        unfold GumballCtrl.spin at hres
        simp only [hfind] at hres
        repeat' split at hres
        all_goals exact Except.noConfusion hres
    exact ⟨he, commit_eq_of_error (error_of_isErr he)⟩
  · intro v gid u sid pidx t now st hnd hcap
    cases hres : GumballCtrl.claimPrize v gid u sid pidx t now st with
    | error e => exact hcap
    | ok st' =>
      unfold GumballCtrl.claimPrize at hres
      repeat' split at hres
      all_goals try exact Except.noConfusion hres
      all_goals
        injection hres with h
        subst h
        exact prizeCap_listUpd hnd
          (List.mem_of_find?_eq_some (by assumption))
          (not_le.mp (by assumption)) hcap
  · intro v gid u sid pidx t now st p hfind hover
    have he : isErr (GumballCtrl.claimPrize v gid u sid pidx t now st)
        = true := by
      cases hres : GumballCtrl.claimPrize v gid u sid pidx t now st with
      | error e => rfl
      | ok st' =>
        exfalso
        unfold GumballCtrl.claimPrize at hres
        simp only [hfind] at hres
        repeat' split at hres
        all_goals exact Except.noConfusion hres
    exact ⟨he, commit_eq_of_error (error_of_isErr he)⟩

/-- C4: double-claim prevention.  A gumball claim on a spin that is no
longer pending, an auction claim by a caller who already holds an
AUCTION_CLAIM journal row for the auction, and a raffle claim by a winner
who already holds a RAFFLE_CLAIM journal row for the raffle (sender and
raffle receiver match) all abort with an error, and the committed store —
`quantityClaimed` and `claimed` counters included — is unchanged. -/
theorem C4_double_claim :
    (∀ (v : Bool) (gid : Nat) (u : Addr) (sid pidx : Nat) (t : Sig)
        (now : Time) (st : DB) (sp : GumballSpin),
      dbFind st.gumballSpins (fun x => x.id == sid) = some sp →
      sp.isPendingClaim = false →
      isErr (GumballCtrl.claimPrize v gid u sid pidx t now st) = true ∧
      commit (GumballCtrl.claimPrize v gid u sid pidx t now st) st = st) ∧
    (∀ (v : Bool) (aid : Nat) (u : Addr) (t : Sig) (st : DB) (r0 : TxRow),
      dbFind st.transactions (fun x => x.kind == "AUCTION_CLAIM"
        && x.sender == u && x.auctionId == some aid) = some r0 →
      isErr (AuctionCtrl.claimAuction v aid u t st) = true ∧
      commit (AuctionCtrl.claimAuction v aid u t st) st = st) ∧
    (∀ (v : Bool) (rid : Nat) (u : Addr) (t : Sig) (st : DB)
        (raffle : Raffle) (r0 : TxRow),
      dbFind st.raffles (fun x => x.id == rid) = some raffle →
      dbFind st.transactions (fun x => x.kind == "RAFFLE_CLAIM"
        && x.sender == u
        && x.receiver == RaffleCtrl.raffleReceiver raffle rid) = some r0 →
      isErr (RaffleCtrl.claimPrize v rid u t st) = true ∧
      commit (RaffleCtrl.claimPrize v rid u t st) st = st) := by
  refine ⟨?_, ?_, ?_⟩
  · intro v gid u sid pidx t now st sp hspin hpend
    have he : isErr (GumballCtrl.claimPrize v gid u sid pidx t now st)
        = true := by
      cases hres : GumballCtrl.claimPrize v gid u sid pidx t now st with
      | error e => rfl
      | ok st' =>
        exfalso
        unfold GumballCtrl.claimPrize at hres
        simp only [hspin] at hres
        repeat' split at hres
        all_goals try exact Except.noConfusion hres
        all_goals simp_all
    exact ⟨he, commit_eq_of_error (error_of_isErr he)⟩
  · intro v aid u t st r0 hclaim
    have he : isErr (AuctionCtrl.claimAuction v aid u t st) = true := by
      cases hres : AuctionCtrl.claimAuction v aid u t st with
      | error e => rfl
      | ok st' =>
        exfalso
        unfold AuctionCtrl.claimAuction at hres
        simp only [hclaim] at hres
        repeat' split at hres
        all_goals exact Except.noConfusion hres
    exact ⟨he, commit_eq_of_error (error_of_isErr he)⟩
  · intro v rid u t st raffle r0 hraf hclaim
    have he : isErr (RaffleCtrl.claimPrize v rid u t st) = true := by
      cases hres : RaffleCtrl.claimPrize v rid u t st with
      | error e => rfl
      | ok st' =>
        exfalso
        unfold RaffleCtrl.claimPrize at hres
        simp only [hraf, hclaim] at hres
        repeat' split at hres
        all_goals exact Except.noConfusion hres
    exact ⟨he, commit_eq_of_error (error_of_isErr he)⟩

/-- C10: per-participant entry cap.  `buyTicket` rejects with no state
change when the requested quantity alone exceeds the raffle's
`maxEntries`, or when the caller's existing entry plus the requested
quantity exceeds it; consequently (with the primary-key uniqueness the
database guarantees) every entry row keeps `quantity ≤ maxEntries` of its
raffle. -/
theorem C10_max_entries :
    (∀ (v : Bool) (rid : Nat) (u : Addr) (q : Nat) (t : Sig) (st : DB)
        (raffle : Raffle),
      dbFind st.raffles (fun r => r.id == rid) = some raffle →
      q > raffle.maxEntries →
      isErr (RaffleCtrl.buyTicket v rid u q t st) = true ∧
      commit (RaffleCtrl.buyTicket v rid u q t st) st = st) ∧
    (∀ (v : Bool) (rid : Nat) (u : Addr) (q : Nat) (t : Sig) (st : DB)
        (raffle : Raffle) (entry : Entry),
      dbFind st.raffles (fun r => r.id == rid) = some raffle →
      dbFind st.entries
        (fun e => e.raffleId == rid && e.userAddress == u) = some entry →
      entry.quantity + q > raffle.maxEntries →
      isErr (RaffleCtrl.buyTicket v rid u q t st) = true ∧
      commit (RaffleCtrl.buyTicket v rid u q t st) st = st) ∧
    (∀ (v : Bool) (rid : Nat) (u : Addr) (q : Nat) (t : Sig) (st : DB),
      (st.raffles.map Raffle.id).Nodup → (st.entries.map Entry.id).Nodup →
      EntryCap st →
      EntryCap (commit (RaffleCtrl.buyTicket v rid u q t st) st)) := by
  refine ⟨?_, ?_, ?_⟩
  · intro v rid u q t st raffle hfind hover
    have he : isErr (RaffleCtrl.buyTicket v rid u q t st) = true := by
      cases hres : RaffleCtrl.buyTicket v rid u q t st with
      | error e => rfl
      | ok st' =>
        exfalso
        unfold RaffleCtrl.buyTicket at hres
        simp only [hfind] at hres
        repeat' split at hres
        all_goals exact Except.noConfusion hres
    exact ⟨he, commit_eq_of_error (error_of_isErr he)⟩
  · intro v rid u q t st raffle entry hfind hentry hover
    have he : isErr (RaffleCtrl.buyTicket v rid u q t st) = true := by
      cases hres : RaffleCtrl.buyTicket v rid u q t st with
      | error e => rfl
      | ok st' =>
        exfalso
        unfold RaffleCtrl.buyTicket at hres
        simp only [hfind, hentry] at hres
        repeat' split at hres
        all_goals exact Except.noConfusion hres
    exact ⟨he, commit_eq_of_error (error_of_isErr he)⟩
  · intro v rid u q t st hndR hndE hcap
    cases hres : RaffleCtrl.buyTicket v rid u q t st with
    | error e => exact hcap
    | ok st' =>
      unfold RaffleCtrl.buyTicket at hres
      repeat' split at hres
      all_goals try exact Except.noConfusion hres
      all_goals
        injection hres with h
        subst h
        first
          | exact entryCap_upd hndR hndE (by assumption) (by assumption)
              (not_lt.mp (by assumption)) hcap
          | exact entryCap_append hndR (by assumption)
              (not_lt.mp (by assumption)) hcap

theorem C3_witness :
    (RaffleCap raffleDB ∧
      RaffleCap (commit (RaffleCtrl.buyTicket true 1 "user" 2 "SIGBUY"
        raffleDB) raffleDB)) ∧
    (isErr (RaffleCtrl.buyTicket true 1 "user" 5 "SIGBUY2"
        raffleAlmostFullDB) = true ∧
      commit (RaffleCtrl.buyTicket true 1 "user" 5 "SIGBUY2"
        raffleAlmostFullDB) raffleAlmostFullDB = raffleAlmostFullDB) ∧
    (GumballCap gumballDB ∧
      GumballCap (commit (GumballCtrl.spin true 1 "spinner2" "SIGSPIN" 100
        gumballDB) gumballDB)) ∧
    (isErr (GumballCtrl.spin true 1 "spinner2" "SIGSPIN" 100 gumballFullDB)
        = true ∧
      commit (GumballCtrl.spin true 1 "spinner2" "SIGSPIN" 100 gumballFullDB)
        gumballFullDB = gumballFullDB) ∧
    (PrizeCap gumballDB ∧
      PrizeCap (commit (GumballCtrl.claimPrize true 1 "spinner" 21 0
        "SIGGCLAIM" 100 gumballDB) gumballDB)) ∧
    (isErr (GumballCtrl.claimPrize true 1 "spinner" 21 0 "SIGGCLAIM" 100
        gumballExhaustedDB) = true ∧
      commit (GumballCtrl.claimPrize true 1 "spinner" 21 0 "SIGGCLAIM" 100
        gumballExhaustedDB) gumballExhaustedDB = gumballExhaustedDB) :=
  ⟨⟨by decide, C3_capacity.1 true 1 "user" 2 "SIGBUY" raffleDB (by decide)
      (by decide)⟩,
   C3_capacity.2.1 true 1 "user" 5 "SIGBUY2" raffleAlmostFullDB
     { sampleRaffle with ticketSold := 99 } rfl (by decide),
   ⟨by decide, C3_capacity.2.2.1 true 1 "spinner2" "SIGSPIN" 100 gumballDB
      (by decide) (by decide)⟩,
   C3_capacity.2.2.2.1 true 1 "spinner2" "SIGSPIN" 100 gumballFullDB
     { sampleGumball with ticketsSold := 5 } rfl (by decide),
   ⟨by decide, C3_capacity.2.2.2.2.1 true 1 "spinner" 21 0 "SIGGCLAIM" 100
      gumballDB (by decide) (by decide)⟩,
   C3_capacity.2.2.2.2.2 true 1 "spinner" 21 0 "SIGGCLAIM" 100
     gumballExhaustedDB { samplePrize with quantityClaimed := 1 } rfl
     (by decide)⟩

theorem C4_witness :
    (isErr (GumballCtrl.claimPrize true 1 "spinner" 21 0 "SIGNEW" 100
        gumballClaimedDB) = true ∧
      commit (GumballCtrl.claimPrize true 1 "spinner" 21 0 "SIGNEW" 100
        gumballClaimedDB) gumballClaimedDB = gumballClaimedDB) ∧
    (isErr (AuctionCtrl.claimAuction true 1 "winner" "SIGNEW"
        auctionClaimedDB) = true ∧
      commit (AuctionCtrl.claimAuction true 1 "winner" "SIGNEW"
        auctionClaimedDB) auctionClaimedDB = auctionClaimedDB) ∧
    (isErr (RaffleCtrl.claimPrize true 1 "winner" "SIGNEW" raffleClaimedDB)
        = true ∧
      commit (RaffleCtrl.claimPrize true 1 "winner" "SIGNEW" raffleClaimedDB)
        raffleClaimedDB = raffleClaimedDB) :=
  ⟨C4_double_claim.1 true 1 "spinner" 21 0 "SIGNEW" 100 gumballClaimedDB
     { samplePendingSpin with isPendingClaim := false } rfl rfl,
   C4_double_claim.2.1 true 1 "winner" "SIGNEW" auctionClaimedDB
     { sampleTxRow "SIGOLD" "AUCTION_CLAIM" with
       sender := "winner"
       auctionId := some 1 } rfl,
   C4_double_claim.2.2 true 1 "winner" "SIGNEW" raffleClaimedDB raffleWon
     { sampleTxRow "SIGOLD" "RAFFLE_CLAIM" with
       sender := "winner"
       receiver := "rafflePda" } rfl rfl⟩

theorem C10_witness :
    (isErr (RaffleCtrl.buyTicket true 1 "user" 11 "SIGBUY3" raffleDB)
        = true ∧
      commit (RaffleCtrl.buyTicket true 1 "user" 11 "SIGBUY3" raffleDB)
        raffleDB = raffleDB) ∧
    (isErr (RaffleCtrl.buyTicket true 1 "user" 3 "SIGBUY4" entryDB)
        = true ∧
      commit (RaffleCtrl.buyTicket true 1 "user" 3 "SIGBUY4" entryDB)
        entryDB = entryDB) ∧
    (EntryCap entryDB ∧
      EntryCap (commit (RaffleCtrl.buyTicket true 1 "user" 2 "SIGBUY5"
        entryDB) entryDB)) :=
  ⟨C10_max_entries.1 true 1 "user" 11 "SIGBUY3" raffleDB sampleRaffle rfl
     (by decide),
   C10_max_entries.2.1 true 1 "user" 3 "SIGBUY4" entryDB sampleRaffle
     ⟨1, 1, "user", 8⟩ rfl rfl (by decide),
   ⟨by decide, C10_max_entries.2.2 true 1 "user" 2 "SIGBUY5" entryDB
      (by decide) (by decide) (by decide)⟩⟩

end Fox
